import Mathlib

/-!
# OverlayApp: capture, diff, overlay

A shallow embedding of `OverlayApp/main.cpp`: the desktop-duplication capture
(`CaptureFrame`), the staging buffer (`InitFrameBuffers`), the per-pixel change
detector (`DetectMovement`), the two render passes (`RenderOverlay`,
`RenderFrame`) and the body of the message loop of `WinMain`.

Conventions of the embedding.

* Machine integers are `Int`/`Nat` with explicit 32-bit wrapping (`wrapInt`,
  `wrapUInt`) wherever the source computes on `int`, `UINT` or `LONG`. Signed
  overflow, which C++ leaves undefined, wraps as well; the theorems are stated on
  inputs on which no overflow occurs. The two wrapping functions are irreducible so
  that unification never unfolds the 32-bit constants; closed terms still evaluate
  under `with_unfolding_all`.
* A mapped buffer (`BYTE*`) is the list of its bytes; an access outside the
  list is undefined behaviour in the source and makes the embedded function
  return `none`.
* The globals of the program are the fields of `State`; every call into
  Direct3D, DXGI and the logger is appended to `State.trace`. The `float` values of
  vertices and colours are conversions of small integers and are kept as integers.
* What the platform decides (the `HRESULT` of a call, the frame delivered by the
  duplication, the bytes of a freshly created texture) is an explicit input.
-/

namespace OverlayApp

/-! ## Machine integers -/

/-- Value of a 32-bit `UINT` computation: the mathematical result modulo `2^32`. -/
@[irreducible]
def wrapUInt (n : Int) : Int := n % 4294967296

/-- Value of a 32-bit `int` (or `LONG`) computation, two's complement. -/
@[irreducible]
def wrapInt (n : Int) : Int := (n + 2147483648) % 4294967296 - 2147483648

/-- A COM result code, a signed 32-bit value. -/
abbrev HRESULT := Int

/-- The `FAILED` test of the Windows headers: the code is negative. -/
def FAILED (hr : HRESULT) : Bool := decide (hr < 0)

/-- Decimal rendering used by the log messages (`IntToString`). -/
def IntToString (value : Int) : String := toString value

/-! ## Data -/

/-- Windows `RECT`: four `LONG` fields. -/
structure RECT where
  left : Int
  top : Int
  right : Int
  bottom : Int
deriving DecidableEq, Repr

/-- The moving demo object of the source. -/
structure MovingObject where
  x : Int
  y : Int
  velocityX : Int
  velocityY : Int
deriving DecidableEq, Repr

/-- Three `float` components. Every value the program stores is the conversion of
a small integer, kept here as that integer. -/
structure XMFLOAT3 where
  x : Int
  y : Int
  z : Int
deriving DecidableEq, Repr

/-- Four `float` components, kept as integers like `XMFLOAT3`. -/
structure XMFLOAT4 where
  x : Int
  y : Int
  z : Int
  w : Int
deriving DecidableEq, Repr

/-- Vertex structure of the source. -/
structure Vertex where
  position : XMFLOAT3
  color : XMFLOAT4
deriving DecidableEq, Repr

/-- The fields of `D3D11_TEXTURE2D_DESC` the program reads or writes (all `UINT`). -/
structure D3D11_TEXTURE2D_DESC where
  Width : Nat
  Height : Nat
  Format : Nat
  Usage : Nat
  BindFlags : Nat
  CPUAccessFlags : Nat
  MiscFlags : Nat
deriving DecidableEq, Repr

/-- Result of `Map`: the mapped bytes and the row pitch in bytes. -/
structure D3D11_MAPPED_SUBRESOURCE where
  pData : List Nat
  RowPitch : Nat
deriving DecidableEq, Repr

/-- A 2D texture: its description, the row pitch its mapping reports, and its bytes
in that layout. -/
structure ID3D11Texture2D where
  desc : D3D11_TEXTURE2D_DESC
  RowPitch : Nat
  bytes : List Nat
deriving DecidableEq, Repr

/-- The two textures the program maps and copies. -/
inductive Resource where
  | acquiredDesktopImage
  | previousFrame
deriving DecidableEq, Repr

/-- Calls into the logger, the duplication interface and the device context, in
program order. A `Draw` stands for the four calls of one quad
(`CreateBuffer`, `IASetVertexBuffers`, `Draw(4, 0)`, `Release`) and carries the
vertices that were put into the buffer. -/
inductive Event where
  | LogInfo (message : String)
  | LogError (message : String)
  | DuplicateOutput (hr : HRESULT)
  | AcquireNextFrame (TimeoutInMilliseconds : Nat) (hr : HRESULT)
  | QueryInterface (hr : HRESULT)
  | ReleaseFrame
  | CreateTexture2D (desc : D3D11_TEXTURE2D_DESC) (hr : HRESULT)
  | Map (resource : Resource) (hr : HRESULT)
  | Unmap (resource : Resource)
  | CopyResource (dst src : Resource)
  | ClearRenderTargetView (color : XMFLOAT4)
  | VSSetShader
  | PSSetShader
  | IASetInputLayout
  | Draw (vertices : List Vertex)
  | Present
deriving DecidableEq, Repr

/-- The globals of the program that the capture, diff and render code touches. -/
structure State where
  objects : List MovingObject
  outputDuplication : Bool
  acquiredDesktopImage : Option ID3D11Texture2D
  previousFrame : Option ID3D11Texture2D
  trace : List Event
deriving DecidableEq, Repr

/-- Append one call to the trace. -/
def emit (e : Event) (s : State) : State := { s with trace := s.trace ++ [e] }

/-- `LogInfo` of the source. -/
def LogInfo (message : String) (s : State) : State := emit (Event.LogInfo message) s

/-- `LogError` of the source. -/
def LogError (message : String) (s : State) : State := emit (Event.LogError message) s

/-! ## The change detector: pixel comparison -/

/-- Lexicographic comparison of two byte ranges of equal length, the result of
`memcmp` up to its sign. -/
def memcmpBytes : List Nat → List Nat → Int
  | a :: as, b :: bs => if a < b then -1 else if b < a then 1 else memcmpBytes as bs
  | _, _ => 0

/-- The call `memcmp(&p[i], &q[j], n)`. Both ranges have to lie inside their buffers;
otherwise the call is undefined and the result is `none`. -/
def memcmp (p : List Nat) (i : Int) (q : List Nat) (j : Int) (n : Nat) : Option Int :=
  if 0 ≤ i ∧ i + n ≤ p.length ∧ 0 ≤ j ∧ j + n ≤ q.length then
    some (memcmpBytes ((p.drop i.toNat).take n) ((q.drop j.toNat).take n))
  else
    none

/-- The expression `(y * currentMapped.RowPitch) + (x * 4)` assigned to `int index`:
the product is computed in `UINT`, `x * 4` in `int`, the sum in `UINT`, and the
result is converted to `int`. -/
def pixelIndex (y x : Int) (RowPitch : Nat) : Int :=
  wrapInt (wrapUInt (wrapUInt (wrapUInt y * RowPitch) + wrapUInt (wrapInt (x * 4))))

/-- One iteration of the inner loop of `DetectMovement` at `(x, y)`. -/
def DetectMovement_pixel (currentPixels previousPixels : List Nat) (RowPitch : Nat)
    (y x : Int) (movingAreas : List RECT) : Option (List RECT) := do
  let index := pixelIndex y x RowPitch
  let c ← memcmp currentPixels index previousPixels index 4
  if c ≠ 0 then
    pure (movingAreas ++ [RECT.mk x y (wrapInt (x + 50)) (wrapInt (y + 50))])
  else
    pure movingAreas

/-- The inner loop `for (int x = 0; x < width; ++x)` of `DetectMovement`. -/
def DetectMovement_row (currentPixels previousPixels : List Nat) (RowPitch : Nat)
    (width : Int) (y : Int) (movingAreas : List RECT) : Option (List RECT) :=
  (List.range width.toNat).foldlM
    (fun areas (x : Nat) =>
      DetectMovement_pixel currentPixels previousPixels RowPitch y (x : Int) areas)
    movingAreas

/-- The outer loop `for (int y = 0; y < height; ++y)` of `DetectMovement`, started
on the empty `movingAreas`. Both buffers are indexed with the row pitch of the
current frame. -/
def DetectMovement_scan (currentMapped previousMapped : D3D11_MAPPED_SUBRESOURCE)
    (desc : D3D11_TEXTURE2D_DESC) : Option (List RECT) :=
  let width := wrapInt desc.Width
  let height := wrapInt desc.Height
  (List.range height.toNat).foldlM
    (fun areas (y : Nat) =>
      DetectMovement_row currentMapped.pData previousMapped.pData currentMapped.RowPitch
        width (y : Int) areas)
    []

/-! ## Platform inputs -/

/-- What the platform decides during `InitDesktopDuplication`: whether each of the four
interface pointers is obtained, and the result of `DuplicateOutput`. -/
structure DuplicationInput where
  dxgiDevice : Bool
  dxgiAdapter : Bool
  dxgiOutput : Bool
  dxgiOutput1 : Bool
  hrDuplicate : HRESULT
deriving DecidableEq, Repr

/-- What the platform decides during one `CaptureFrame`: the result of
`AcquireNextFrame`, the desktop texture it delivers, and the result of the
`QueryInterface` for `ID3D11Texture2D`. -/
structure CaptureInput where
  hrAcquire : HRESULT
  desktopResource : ID3D11Texture2D
  hrQuery : HRESULT
deriving DecidableEq, Repr

/-- What the platform decides during `InitFrameBuffers`: the result of
`CreateTexture2D`, and the row pitch and the bytes of the new texture, which is
created without initial data. -/
structure CreateInput where
  hrCreate : HRESULT
  RowPitch : Nat
  bytes : List Nat
deriving DecidableEq, Repr

/-- What the platform decides during one `DetectMovement`: the results of the two
`Map` calls. -/
structure MapInput where
  hrCurrent : HRESULT
  hrPrevious : HRESULT
deriving DecidableEq, Repr

/-- One retrieved message with everything the platform decides while the loop body
runs: the message identifier, the client rectangle of the desktop window, and the
inputs of the capture and of the two mappings. -/
structure TickInput where
  message : Nat
  clientRect : RECT
  capture : CaptureInput
  map : MapInput
deriving DecidableEq, Repr

/-! ## Direct3D operations on the textures -/

/-- `D3D11_USAGE_STAGING`. -/
def D3D11_USAGE_STAGING : Nat := 3

/-- `D3D11_CPU_ACCESS_READ`. -/
def D3D11_CPU_ACCESS_READ : Nat := 131072

/-- A successful `Map` for reading: the bytes of the texture and its row pitch. -/
def mapped (t : ID3D11Texture2D) : D3D11_MAPPED_SUBRESOURCE :=
  D3D11_MAPPED_SUBRESOURCE.mk t.bytes t.RowPitch

/-- Effect of `CopyResource(dst, src)` on the destination. The two textures must have
the same width and height, otherwise the call is dropped. Each pixel row of the
source is copied into the layout of the destination; the padding bytes of the
destination rows keep their value. -/
def CopyResource (dst src : ID3D11Texture2D) : ID3D11Texture2D :=
  if dst.desc.Width = src.desc.Width ∧ dst.desc.Height = src.desc.Height then
    { dst with
      bytes := dst.bytes.mapIdx fun i b =>
        if i / dst.RowPitch < dst.desc.Height ∧ i % dst.RowPitch < 4 * dst.desc.Width then
          src.bytes.getD (i / dst.RowPitch * src.RowPitch + i % dst.RowPitch) b
        else
          b }
  else
    dst

/-! ## The functions of the program -/

/-- `InitDesktopDuplication` of the source. The first three interface pointers are
dereferenced before they are tested, so a null pointer among them is undefined
behaviour (`none`). -/
def InitDesktopDuplication (s : State) (i : DuplicationInput) : Option (Bool × State) :=
  let s := LogInfo "Initializing desktop duplication..." s
  if !i.dxgiDevice || !i.dxgiAdapter || !i.dxgiOutput then
    none
  else
    let s := LogInfo "DXGI device obtained successfully." s
    let s := LogInfo "DXGI adapter obtained successfully." s
    let s := LogInfo "DXGI output obtained successfully." s
    if !i.dxgiOutput1 then
      some (false, LogError "Failed to get DXGI output1." s)
    else
      let s := LogInfo "DXGI output1 obtained successfully." s
      let s := emit (Event.DuplicateOutput i.hrDuplicate) s
      if FAILED i.hrDuplicate then
        some (false, LogError "Failed to initialize desktop duplication."
          { s with outputDuplication := false })
      else
        let s := { s with outputDuplication := true }
        some (true, LogInfo "Desktop duplication initialized successfully." s)

/-- The message `CaptureFrame` logs about the acquired image. -/
def acquiredImageMessage (desc : D3D11_TEXTURE2D_DESC) : String :=
  "Acquired image width: " ++ IntToString (wrapInt desc.Width) ++
    ", height: " ++ IntToString (wrapInt desc.Height) ++
    ", format: " ++ IntToString (wrapInt desc.Format) ++
    ", usage: " ++ IntToString (wrapInt desc.Usage) ++
    ", CPU access flags: " ++ IntToString (wrapInt desc.CPUAccessFlags)

/-- `CaptureFrame` of the source. -/
def CaptureFrame (s : State) (i : CaptureInput) : Bool × State :=
  let s := LogInfo "Capturing frame..." s
  if !s.outputDuplication then
    (false, LogError "Output duplication not initialized." s)
  else
    let s := emit (Event.AcquireNextFrame 0 i.hrAcquire) s
    if FAILED i.hrAcquire then
      (false, LogError "Failed to acquire next frame." s)
    else
      let s := LogInfo "Next frame acquired successfully." s
      let s := emit (Event.QueryInterface i.hrQuery) s
      if FAILED i.hrQuery then
        let s := { s with acquiredDesktopImage := none }
        let s := LogError "Failed to query interface for acquired desktop image." s
        let s := emit Event.ReleaseFrame s
        (false, s)
      else
        let s := { s with acquiredDesktopImage := some i.desktopResource }
        let s := LogInfo "Acquired desktop image queried successfully." s
        let s := LogInfo (acquiredImageMessage i.desktopResource.desc) s
        let s := emit Event.ReleaseFrame s
        (true, s)

/-- The description `InitFrameBuffers` derives from the one of the acquired image:
no bind flags, staging usage, CPU read access, no misc flags. -/
def stagingDesc (desc : D3D11_TEXTURE2D_DESC) : D3D11_TEXTURE2D_DESC :=
  { desc with
    BindFlags := 0
    Usage := D3D11_USAGE_STAGING
    CPUAccessFlags := D3D11_CPU_ACCESS_READ
    MiscFlags := 0 }

/-- `InitFrameBuffers` of the source. The new texture takes the description of the
acquired image with the staging settings; its content is not initialised. -/
def InitFrameBuffers (s : State) (i : CreateInput) : Bool × State :=
  let s := LogInfo "Initializing frame buffers..." s
  match s.acquiredDesktopImage with
  | none => (false, LogError "Acquired desktop image is not initialized." s)
  | some image =>
    let desc := stagingDesc image.desc
    let s := emit (Event.CreateTexture2D desc i.hrCreate) s
    if FAILED i.hrCreate then
      (false, LogError "Failed to create previous frame buffer."
        { s with previousFrame := none })
    else
      let s := { s with previousFrame := some (ID3D11Texture2D.mk desc i.RowPitch i.bytes) }
      (true, LogInfo "Previous frame buffer created successfully." s)

/-- The message `DetectMovement` logs when mapping the current frame fails. -/
def mapCurrentFailedMessage (hr : HRESULT) : String :=
  "Failed to map current frame. HRESULT: " ++ IntToString hr

/-- The message `DetectMovement` logs when mapping the previous frame fails. -/
def mapPreviousFailedMessage (hr : HRESULT) : String :=
  "Failed to map previous frame. HRESULT: " ++ IntToString hr

/-- `DetectMovement` of the source: the returned `movingAreas` and the state after
the call. The result is `none` where the source has undefined behaviour: a `Map`
of a null `previousFrame`, or a comparison that reads outside a mapped buffer. -/
def DetectMovement (s : State) (i : MapInput) : Option (List RECT × State) :=
  let s := LogInfo "Detecting movement..." s
  match s.acquiredDesktopImage with
  | none => some ([], LogError "Acquired desktop image is null." s)
  | some current =>
    let s := emit (Event.Map Resource.acquiredDesktopImage i.hrCurrent) s
    if FAILED i.hrCurrent then
      some ([], LogError (mapCurrentFailedMessage i.hrCurrent) s)
    else
      match s.previousFrame with
      | none => none
      | some previous =>
        let s := emit (Event.Map Resource.previousFrame i.hrPrevious) s
        if FAILED i.hrPrevious then
          let s := LogError (mapPreviousFailedMessage i.hrPrevious) s
          some ([], emit (Event.Unmap Resource.acquiredDesktopImage) s)
        else
          match DetectMovement_scan (mapped current) (mapped previous) current.desc with
          | none => none
          | some movingAreas =>
            let s := emit (Event.Unmap Resource.acquiredDesktopImage) s
            let s := emit (Event.Unmap Resource.previousFrame) s
            let s := emit
              (Event.CopyResource Resource.previousFrame Resource.acquiredDesktopImage) s
            let s := { s with previousFrame := some (CopyResource previous current) }
            some (movingAreas, LogInfo "Movement detection completed." s)

/-- The four red vertices `RenderOverlay` builds for one detected area. -/
def areaVertices (area : RECT) : List Vertex :=
  [ Vertex.mk (XMFLOAT3.mk area.left area.top 0) (XMFLOAT4.mk 1 0 0 1),
    Vertex.mk (XMFLOAT3.mk area.right area.top 0) (XMFLOAT4.mk 1 0 0 1),
    Vertex.mk (XMFLOAT3.mk area.left area.bottom 0) (XMFLOAT4.mk 1 0 0 1),
    Vertex.mk (XMFLOAT3.mk area.right area.bottom 0) (XMFLOAT4.mk 1 0 0 1) ]

/-- The four vertices `RenderFrame` builds for one moving object, white with alpha
zero. -/
def objectVertices (obj : MovingObject) : List Vertex :=
  [ Vertex.mk (XMFLOAT3.mk obj.x obj.y 0) (XMFLOAT4.mk 1 1 1 0),
    Vertex.mk (XMFLOAT3.mk (wrapInt (obj.x + 50)) obj.y 0) (XMFLOAT4.mk 1 1 1 0),
    Vertex.mk (XMFLOAT3.mk obj.x (wrapInt (obj.y + 50)) 0) (XMFLOAT4.mk 1 1 1 0),
    Vertex.mk (XMFLOAT3.mk (wrapInt (obj.x + 50)) (wrapInt (obj.y + 50)) 0)
      (XMFLOAT4.mk 1 1 1 0) ]

/-- `RenderOverlay` of the source: it runs `DetectMovement` and draws one quad per
returned area. -/
def RenderOverlay (s : State) (i : MapInput) : Option State :=
  let s := LogInfo "Rendering overlay..." s
  match DetectMovement s i with
  | none => none
  | some (movingAreas, s) =>
    some (movingAreas.foldl (fun s area => emit (Event.Draw (areaVertices area)) s) s)

/-- `RenderFrame` of the source: clear to transparent, bind the pipeline, draw one
quad per moving object, present. -/
def RenderFrame (s : State) : State :=
  let s := emit (Event.ClearRenderTargetView (XMFLOAT4.mk 0 0 0 0)) s
  let s := emit Event.VSSetShader s
  let s := emit Event.PSSetShader s
  let s := emit Event.IASetInputLayout s
  let s := s.objects.foldl (fun s obj => emit (Event.Draw (objectVertices obj)) s) s
  emit Event.Present s

/-- The body of the loop of `UpdateObjectPositions` for one object. -/
def UpdateObjectPosition (rect : RECT) (obj : MovingObject) : MovingObject :=
  let obj := { obj with x := wrapInt (obj.x + obj.velocityX) }
  let obj := { obj with y := wrapInt (obj.y + obj.velocityY) }
  let obj :=
    if obj.x < 0 ∨ obj.x > wrapInt (rect.right - 50) then
      { obj with velocityX := wrapInt (-obj.velocityX) }
    else obj
  if obj.y < 0 ∨ obj.y > wrapInt (rect.bottom - 50) then
    { obj with velocityY := wrapInt (-obj.velocityY) }
  else obj

/-- `UpdateObjectPositions` of the source, with the client rectangle of the desktop
window as input. -/
def UpdateObjectPositions (rect : RECT) (s : State) : State :=
  { s with objects := s.objects.map (UpdateObjectPosition rect) }

/-- `WM_TIMER`. -/
def WM_TIMER : Nat := 275

/-- `WindowProc` of the source as far as it touches the state: only `WM_TIMER`
updates the moving objects. -/
def WindowProc (s : State) (uMsg : Nat) (clientRect : RECT) : State :=
  if uMsg = WM_TIMER then UpdateObjectPositions clientRect s else s

/-- The message the loop of `WinMain` logs for a retrieved message (`msg.message` is a
`UINT` passed to `IntToString(int)`). -/
def messageReceivedMessage (message : Nat) : String :=
  "Message received: " ++ IntToString (wrapInt message)

/-- The body of the message loop of `WinMain` for one retrieved message: dispatch,
capture, overlay when the capture succeeded, render. -/
def WinMain_tick (s : State) (i : TickInput) : Option State :=
  let s := LogInfo (messageReceivedMessage i.message) s
  let s := WindowProc s i.message i.clientRect
  match CaptureFrame s i.capture with
  | (true, s) =>
    let s := LogInfo "Frame captured successfully." s
    match RenderOverlay s i.map with
    | none => none
    | some s => some (RenderFrame s)
  | (false, s) =>
    let s := LogError "Failed to capture frame." s
    some (RenderFrame s)

/-- The message loop of `WinMain` over the messages `GetMessage` retrieves before
it reports `WM_QUIT`. -/
def WinMain_loop (s : State) : List TickInput → Option State
  | [] => some s
  | i :: rest =>
    match WinMain_tick s i with
    | none => none
    | some s => WinMain_loop s rest

/-! ## Reference notions the claims are stated with -/

/-- The four bytes of pixel `(x, y)` in a mapped view with its own row pitch. -/
def pixelBytes (v : D3D11_MAPPED_SUBRESOURCE) (x y : Nat) : List Nat :=
  (v.pData.drop (y * v.RowPitch + 4 * x)).take 4

/-- Pixel `(x, y)` differs between the two views. -/
def pixelChanged (current previous : D3D11_MAPPED_SUBRESOURCE) (x y : Nat) : Bool :=
  decide (pixelBytes current x y ≠ pixelBytes previous x y)

/-- The marker rectangle of the output policy: `(x, y, x + 50, y + 50)`. -/
def marker (x y : Nat) : RECT := RECT.mk x y (x + 50) (y + 50)

/-- The changed pixels of a `Width` by `Height` frame in row-major scan order
(`y` ascending, then `x` ascending). -/
def changedPixels (Width Height : Nat) (current previous : D3D11_MAPPED_SUBRESOURCE) :
    List (Nat × Nat) :=
  (List.range Height).flatMap fun y =>
    ((List.range Width).filter fun x => pixelChanged current previous x y).map fun x =>
      (x, y)

/-- The region list of the output policy: one marker for every changed pixel, in scan
order. -/
def changedRegions (Width Height : Nat) (current previous : D3D11_MAPPED_SUBRESOURCE) :
    List RECT :=
  (changedPixels Width Height current previous).map fun p => marker p.1 p.2

/-- Pixel `(x, y)` lies inside the rectangle: `left <= x < right`, `top <= y < bottom`. -/
def RECT.covers (r : RECT) (x y : Nat) : Prop :=
  r.left ≤ x ∧ (x : Int) < r.right ∧ r.top ≤ y ∧ (y : Int) < r.bottom

/-- A mapped view of a `Width` by `Height` texture of 4-byte pixels: each row holds
its pixels, the buffer holds `Height` rows, and the buffer is addressable with an
`int` offset. -/
def ValidView (desc : D3D11_TEXTURE2D_DESC) (v : D3D11_MAPPED_SUBRESOURCE) : Prop :=
  4 * desc.Width ≤ v.RowPitch ∧ desc.Height * v.RowPitch ≤ v.pData.length ∧
    v.pData.length < 2147483648

/-! ## Views of a trace -/

/-- The event is a call of the logger. -/
def isLog : Event → Bool
  | Event.LogInfo _ => true
  | Event.LogError _ => true
  | _ => false

/-- The event (re)creates the frame source or the previous buffer. -/
def isInitEvent : Event → Bool
  | Event.DuplicateOutput _ => true
  | Event.CreateTexture2D _ _ => true
  | _ => false

/-- The event acts on the render target: a clear, a draw or the present. -/
def isRenderTargetEvent : Event → Bool
  | Event.ClearRenderTargetView _ => true
  | Event.Draw _ => true
  | Event.Present => true
  | _ => false

/-- The calls into DXGI and Direct3D of a trace, without the log lines. -/
def deviceEvents (t : List Event) : List Event := t.filter fun e => !isLog e

/-- The render-target events of a trace. -/
def renderTargetEvents (t : List Event) : List Event := t.filter isRenderTargetEvent

/-- The draw calls `RenderOverlay` issues for a list of detected areas. -/
def regionDraws (areas : List RECT) : List Event :=
  areas.map fun area => Event.Draw (areaVertices area)

/-- The draw calls `RenderFrame` issues for a list of moving objects. -/
def demoDraws (objs : List MovingObject) : List Event :=
  objs.map fun obj => Event.Draw (objectVertices obj)

/-! ## The frame slot of the duplication interface -/

/-- The event is a call of `AcquireNextFrame` or of `ReleaseFrame`. -/
def isSlotEvent : Event → Bool
  | Event.AcquireNextFrame _ _ => true
  | Event.ReleaseFrame => true
  | _ => false

/-- The one-slot protocol of the duplication interface run over a trace, starting with
or without an outstanding frame. The result is `some held` when the trace respects the
protocol and ends with (`held = true`) or without an outstanding frame; it is `none`
when `AcquireNextFrame` is called while a frame is outstanding, or `ReleaseFrame` while
none is. A successful `AcquireNextFrame` makes its frame outstanding. -/
def frameSlot : Bool → List Event → Option Bool
  | held, [] => some held
  | held, e :: rest =>
    match e with
    | Event.AcquireNextFrame _ hr => if held then none else frameSlot (!FAILED hr) rest
    | Event.ReleaseFrame => if held then frameSlot false rest else none
    | _ => frameSlot held rest

/-- The quad is one of the red markers `RenderOverlay` builds: every vertex has the
colour `(1, 0, 0, 1)`. The demo quads of `RenderFrame` have the colour `(1, 1, 1, 0)`. -/
def isRegionQuad (vertices : List Vertex) : Bool :=
  vertices.all fun v => decide (v.color = XMFLOAT4.mk 1 0 0 1)

/-- The event is a step of the capture, diff and overlay pipeline on the acquired
frame: its adoption (`QueryInterface`), a `Map` or `Unmap` of the change detector, the
`CopyResource` that commits it, or the draw of a region quad. -/
def isOverlayStep : Event → Bool
  | Event.QueryInterface _ => true
  | Event.Map _ _ => true
  | Event.Unmap _ => true
  | Event.CopyResource _ _ => true
  | Event.Draw vertices => isRegionQuad vertices
  | _ => false

/-- The pipeline steps of a trace, in the order of the trace. -/
def overlaySteps (t : List Event) : List Event := t.filter isOverlayStep

/-- The events a state has appended to the trace of an earlier state. -/
def eventsSince (s s1 : State) : List Event := s1.trace.drop s.trace.length

instance (desc : D3D11_TEXTURE2D_DESC) (v : D3D11_MAPPED_SUBRESOURCE) :
    Decidable (ValidView desc v) := by
  unfold ValidView
  infer_instance

instance (r : RECT) (x y : Nat) : Decidable (r.covers x y) := by
  unfold RECT.covers
  infer_instance

/-! ## The mapping of the two textures -/

/-- The map protocol of the device context run over a trace. The state says whether
the acquired image and the previous frame are mapped. A successful `Map` maps its
resource, an `Unmap` releases it; the result is `none` when a mapped resource is
mapped again or a resource that is not mapped is unmapped, and otherwise the state
after the trace. -/
def mapSlots : Bool × Bool → List Event → Option (Bool × Bool)
  | m, [] => some m
  | m, e :: rest =>
    match e with
    | Event.Map Resource.acquiredDesktopImage hr =>
      if m.1 then none else mapSlots (!FAILED hr, m.2) rest
    | Event.Map Resource.previousFrame hr =>
      if m.2 then none else mapSlots (m.1, !FAILED hr) rest
    | Event.Unmap Resource.acquiredDesktopImage =>
      if m.1 then mapSlots (false, m.2) rest else none
    | Event.Unmap Resource.previousFrame =>
      if m.2 then mapSlots (m.1, false) rest else none
    | _ => mapSlots m rest

/-! ## Concrete frames and states -/

/-- Description of an 11 by 11 desktop image. -/
def desc11 : D3D11_TEXTURE2D_DESC :=
  { Width := 11, Height := 11, Format := 87, Usage := 0, BindFlags := 0,
    CPUAccessFlags := 0, MiscFlags := 0 }

/-- Frame A: 11 by 11 pixels, row pitch 44, every pixel `(0, 0, 0, 0)`. -/
def frameA : ID3D11Texture2D :=
  ID3D11Texture2D.mk desc11 44 (List.replicate 484 0)

/-- Frame B: frame A except that pixel `(10, 10)` is `(255, 0, 0, 255)`. -/
def frameB : ID3D11Texture2D :=
  ID3D11Texture2D.mk desc11 44 (List.replicate 480 0 ++ [255, 0, 0, 255])

/-- The moving objects the program starts with. -/
def objects : List MovingObject :=
  [MovingObject.mk 50 50 5 3, MovingObject.mk 100 100 (-3) 4, MovingObject.mk 200 150 4 (-2)]

/-- A state of the running program with the given current and previous frame and an
empty trace. -/
def stateWith (current previous : ID3D11Texture2D) : State :=
  { objects := objects, outputDuplication := true, acquiredDesktopImage := some current,
    previousFrame := some previous, trace := [] }

/-- The state in which `WinMain` calls `InitFrameBuffers`: the initial capture has
stored `image`, no previous buffer exists yet. -/
def stateBeforeInit (image : ID3D11Texture2D) : State :=
  { objects := objects, outputDuplication := true, acquiredDesktopImage := some image,
    previousFrame := none, trace := [] }

/-- `CreateTexture2D` succeeds and the new 11 by 11 staging texture has row pitch 44 and
all bytes zero. -/
def createZero : CreateInput := CreateInput.mk 0 44 (List.replicate 484 0)

/-- `AcquireNextFrame` and `QueryInterface` succeed and deliver `frame`. -/
def captureOk (frame : ID3D11Texture2D) : CaptureInput := CaptureInput.mk 0 frame 0

/-- `DXGI_ERROR_WAIT_TIMEOUT` (`0x887A0027`) as a signed `HRESULT`. -/
def DXGI_ERROR_WAIT_TIMEOUT : HRESULT := -2005270489

/-- `DXGI_ERROR_ACCESS_LOST` (`0x887A0026`) as a signed `HRESULT`. -/
def DXGI_ERROR_ACCESS_LOST : HRESULT := -2005270490

/-- `AcquireNextFrame` fails with the given code. -/
def captureFailing (hr : HRESULT) : CaptureInput := CaptureInput.mk hr frameA 0

/-- Both `Map` calls succeed (`S_OK`). -/
def mapsOk : MapInput := MapInput.mk 0 0

/-- `E_INVALIDARG` (`0x80070057`) as a signed `HRESULT`. -/
def E_INVALIDARG : HRESULT := -2147024809

/-- The `Map` of the current frame succeeds and the `Map` of the previous frame fails
with `E_INVALIDARG`. -/
def mapPreviousFails : MapInput := MapInput.mk 0 E_INVALIDARG

/-- The `Map` of the current frame fails with `E_INVALIDARG`. -/
def mapCurrentFails : MapInput := MapInput.mk E_INVALIDARG 0

/-- A timer message that delivers frame B, after which the `Map` of the current frame
fails. -/
def tickMapCurrentFails : TickInput :=
  TickInput.mk WM_TIMER (RECT.mk 0 0 1920 1080) (CaptureInput.mk 0 frameB 0) mapCurrentFails

/-- A timer message that delivers frame B, after which the `Map` of the previous frame
fails. -/
def tickMapPreviousFails : TickInput :=
  TickInput.mk WM_TIMER (RECT.mk 0 0 1920 1080) (CaptureInput.mk 0 frameB 0) mapPreviousFails

/-- Description of a 2 by 2 image. -/
def desc2 : D3D11_TEXTURE2D_DESC :=
  { Width := 2, Height := 2, Format := 87, Usage := 0, BindFlags := 0,
    CPUAccessFlags := 0, MiscFlags := 0 }

/-- A 2 by 2 frame with row pitch 8 (no padding), every pixel `(1, 1, 1, 1)`. -/
def frameTight : ID3D11Texture2D :=
  ID3D11Texture2D.mk desc2 8 (List.replicate 16 1)

/-- The same 2 by 2 picture, every pixel `(1, 1, 1, 1)`, in a buffer with row pitch 12:
each row ends with four padding bytes `0`. -/
def framePadded : ID3D11Texture2D :=
  ID3D11Texture2D.mk desc2 12
    [1, 1, 1, 1, 1, 1, 1, 1, 0, 0, 0, 0, 1, 1, 1, 1, 1, 1, 1, 1, 0, 0, 0, 0]

/-- A timer message with the given capture input, a 1920 by 1080 desktop and both
mappings succeeding. -/
def timerTick (c : CaptureInput) : TickInput :=
  TickInput.mk WM_TIMER (RECT.mk 0 0 1920 1080) c mapsOk

/-! ## Lemmas: machine arithmetic and `memcmp` -/

theorem wrapInt_of_range (n : Int) (h0 : 0 ≤ n) (h1 : n < 2147483648) : wrapInt n = n := by
  unfold wrapInt
  omega

theorem wrapUInt_of_range (n : Int) (h0 : 0 ≤ n) (h1 : n < 4294967296) : wrapUInt n = n := by
  unfold wrapUInt
  omega

theorem wrapInt_zero : wrapInt 0 = 0 := by
  unfold wrapInt
  decide

theorem wrapInt_add_fifty (n : Nat) (h : n + 50 < 2147483648) :
    wrapInt ((n : Int) + 50) = (n : Int) + 50 :=
  wrapInt_of_range _ (by omega) (by omega)

theorem wrapInt_natCast (n : Nat) (h : n < 2147483648) : wrapInt (n : Int) = (n : Int) :=
  wrapInt_of_range _ (by omega) (by omega)

theorem pixelIndex_of_range (y x RowPitch : Nat)
    (h : y * RowPitch + 4 * x < 2147483648) :
    pixelIndex y x RowPitch = ((y * RowPitch + 4 * x : Nat) : Int) := by
  have hm : (y : Int) * (RowPitch : Int) = ((y * RowPitch : Nat) : Int) := by
    rw [Nat.cast_mul]
  unfold pixelIndex
  rcases Nat.eq_zero_or_pos RowPitch with h0 | h0
  · subst h0
    simp only [Nat.cast_zero, mul_zero, Nat.mul_zero] at *
    unfold wrapInt wrapUInt
    omega
  · have hy : y ≤ y * RowPitch := Nat.le_mul_of_pos_right y h0
    have e1 : wrapUInt (y : Int) = y := wrapUInt_of_range _ (by omega) (by omega)
    rw [e1, hm]
    generalize y * RowPitch = m at *
    clear hm e1
    unfold wrapInt wrapUInt
    omega

theorem memcmpBytes_eq_zero_iff (a b : List Nat) (h : a.length = b.length) :
    memcmpBytes a b = 0 ↔ a = b := by
  induction a generalizing b with
  | nil =>
    cases b with
    | nil => simp [memcmpBytes]
    | cons y ys => simp at h
  | cons x xs ih =>
    cases b with
    | nil => simp at h
    | cons y ys =>
      have hl : xs.length = ys.length := by simpa using h
      unfold memcmpBytes
      by_cases h1 : x < y
      · simp [h1]
        omega
      · by_cases h2 : y < x
        · simp [h1, h2]
          omega
        · have hxy : x = y := by omega
          simp [h1, h2, ih ys hl, hxy]

theorem memcmp_of_range (p q : List Nat) (i n : Nat)
    (hp : i + n ≤ p.length) (hq : i + n ≤ q.length) :
    memcmp p i q i n = some (memcmpBytes ((p.drop i).take n) ((q.drop i).take n)) := by
  unfold memcmp
  have hc : (0 : Int) ≤ (i : Int) ∧ (i : Int) + (n : Int) ≤ (p.length : Int) ∧
      (0 : Int) ≤ (i : Int) ∧ (i : Int) + (n : Int) ≤ (q.length : Int) := by
    omega
  rw [if_pos hc]
  simp

/-! ## Lemmas: the scan of `DetectMovement` -/

theorem pixel_offset_bound (W H RowPitch x y : Nat) (hW : 4 * W ≤ RowPitch)
    (hx : x < W) (hy : y < H) : y * RowPitch + 4 * x + 4 ≤ H * RowPitch := by
  have h1 : (y + 1) * RowPitch ≤ H * RowPitch := Nat.mul_le_mul_right RowPitch hy
  have h2 : (y + 1) * RowPitch = y * RowPitch + RowPitch := Nat.succ_mul y RowPitch
  omega

theorem DetectMovement_pixel_of_valid (desc : D3D11_TEXTURE2D_DESC)
    (cur prev : D3D11_MAPPED_SUBRESOURCE) (hc : ValidView desc cur)
    (hp : desc.Height * cur.RowPitch ≤ prev.pData.length)
    (x y : Nat) (hx : x < desc.Width) (hy : y < desc.Height) (areas : List RECT) :
    DetectMovement_pixel cur.pData prev.pData cur.RowPitch y x areas =
      some (if decide (((cur.pData.drop (y * cur.RowPitch + 4 * x)).take 4) ≠
          ((prev.pData.drop (y * cur.RowPitch + 4 * x)).take 4))
        then areas ++ [marker x y] else areas) := by
  obtain ⟨hW, hH, hL⟩ := hc
  have hb := pixel_offset_bound desc.Width desc.Height cur.RowPitch x y hW hx hy
  have hyH : y * 4 ≤ y * cur.RowPitch := Nat.mul_le_mul_left y (by omega)
  unfold DetectMovement_pixel
  rw [pixelIndex_of_range y x cur.RowPitch (by omega)]
  simp only []
  rw [memcmp_of_range cur.pData prev.pData (y * cur.RowPitch + 4 * x) 4 (by omega) (by omega)]
  have hlen : ((cur.pData.drop (y * cur.RowPitch + 4 * x)).take 4).length =
      ((prev.pData.drop (y * cur.RowPitch + 4 * x)).take 4).length := by
    simp only [List.length_take, List.length_drop]
    omega
  have hz := memcmpBytes_eq_zero_iff _ _ hlen
  have hx50 : x + 50 < 2147483648 := by omega
  have hy50 : y + 50 < 2147483648 := by omega
  have e1 : wrapInt ((x : Int) + 50) = (x : Int) + 50 := wrapInt_add_fifty x hx50
  have e2 : wrapInt ((y : Int) + 50) = (y : Int) + 50 := wrapInt_add_fifty y hy50
  simp only [Option.bind_eq_bind, Option.some_bind, e1, e2, marker]
  by_cases hE : ((cur.pData.drop (y * cur.RowPitch + 4 * x)).take 4) =
      ((prev.pData.drop (y * cur.RowPitch + 4 * x)).take 4)
  · rw [hz.mpr hE]
    simp [hE]
  · have hne : memcmpBytes ((cur.pData.drop (y * cur.RowPitch + 4 * x)).take 4)
        ((prev.pData.drop (y * cur.RowPitch + 4 * x)).take 4) ≠ 0 := fun h0 => hE (hz.mp h0)
    simp [hE, hne]

theorem DetectMovement_row_upto (desc : D3D11_TEXTURE2D_DESC)
    (cur prev : D3D11_MAPPED_SUBRESOURCE) (hc : ValidView desc cur)
    (hp : desc.Height * cur.RowPitch ≤ prev.pData.length)
    (y : Nat) (hy : y < desc.Height) (n : Nat) (hn : n ≤ desc.Width) (areas : List RECT) :
    (List.range n).foldlM
        (fun areas (x : Nat) =>
          DetectMovement_pixel cur.pData prev.pData cur.RowPitch (y : Int) (x : Int) areas)
        areas =
      some (areas ++ ((List.range n).filter fun x =>
        pixelChanged cur (D3D11_MAPPED_SUBRESOURCE.mk prev.pData cur.RowPitch) x y).map
          fun x => marker x y) := by
  induction n with
  | zero => simp
  | succ n ih =>
    rw [List.range_succ, List.foldlM_append, ih (Nat.le_of_succ_le hn)]
    simp only [List.foldlM_cons, List.foldlM_nil]
    simp only [Option.bind_eq_bind]
    rw [Option.some_bind, DetectMovement_pixel_of_valid desc cur prev hc hp n y hn hy]
    rw [Option.some_bind]
    simp only [Option.pure_def, List.filter_append, List.map_append,
      pixelChanged, pixelBytes]
    by_cases hE : ((cur.pData.drop (y * cur.RowPitch + 4 * n)).take 4) =
        ((prev.pData.drop (y * cur.RowPitch + 4 * n)).take 4)
    · simp [hE]
    · simp [hE]

theorem DetectMovement_row_of_valid (desc : D3D11_TEXTURE2D_DESC)
    (cur prev : D3D11_MAPPED_SUBRESOURCE) (hc : ValidView desc cur)
    (hp : desc.Height * cur.RowPitch ≤ prev.pData.length)
    (y : Nat) (hy : y < desc.Height) (areas : List RECT) :
    DetectMovement_row cur.pData prev.pData cur.RowPitch (desc.Width : Int) (y : Int) areas =
      some (areas ++ ((List.range desc.Width).filter fun x =>
        pixelChanged cur (D3D11_MAPPED_SUBRESOURCE.mk prev.pData cur.RowPitch) x y).map
          fun x => marker x y) := by
  unfold DetectMovement_row
  rw [Int.toNat_natCast]
  exact DetectMovement_row_upto desc cur prev hc hp y hy desc.Width (Nat.le_refl _) areas

theorem DetectMovement_rows_upto (desc : D3D11_TEXTURE2D_DESC)
    (cur prev : D3D11_MAPPED_SUBRESOURCE) (hc : ValidView desc cur)
    (hp : desc.Height * cur.RowPitch ≤ prev.pData.length)
    (m : Nat) (hm : m ≤ desc.Height) :
    (List.range m).foldlM
        (fun areas (y : Nat) =>
          DetectMovement_row cur.pData prev.pData cur.RowPitch (desc.Width : Int) (y : Int)
            areas)
        [] =
      some (changedRegions desc.Width m cur
        (D3D11_MAPPED_SUBRESOURCE.mk prev.pData cur.RowPitch)) := by
  induction m with
  | zero => simp [changedRegions, changedPixels]
  | succ m ih =>
    rw [List.range_succ, List.foldlM_append, ih (by omega)]
    simp only [Option.bind_eq_bind, Option.some_bind, List.foldlM_cons, List.foldlM_nil]
    rw [DetectMovement_row_of_valid desc cur prev hc hp m (by omega)]
    simp [changedRegions, changedPixels, List.range_succ, List.flatMap_append, List.map_map,
      Function.comp_def]

theorem foldlM_keep {α β : Type} (f : β → α → Option β) (hf : ∀ b a, f b a = some b)
    (l : List α) (b : β) : l.foldlM f b = some b := by
  induction l with
  | nil => rfl
  | cons a l ih => simp [List.foldlM_cons, hf, ih]

theorem changedRegions_width_zero (H : Nat) (cur prev : D3D11_MAPPED_SUBRESOURCE) :
    changedRegions 0 H cur prev = [] := by
  simp [changedRegions, changedPixels]

/-- The two loops of `DetectMovement` on a valid current view and a previous buffer
that holds at least as many rows of the current pitch: the scan returns, in
row-major order, one marker per pixel whose bytes differ at the offset computed
from the row pitch of the current view. -/
theorem DetectMovement_scan_of_valid (desc : D3D11_TEXTURE2D_DESC)
    (cur prev : D3D11_MAPPED_SUBRESOURCE) (hc : ValidView desc cur)
    (hp : desc.Height * cur.RowPitch ≤ prev.pData.length) :
    DetectMovement_scan cur prev desc =
      some (changedRegions desc.Width desc.Height cur
        (D3D11_MAPPED_SUBRESOURCE.mk prev.pData cur.RowPitch)) := by
  obtain ⟨hW, hH, hL⟩ := hc
  unfold DetectMovement_scan
  simp only []
  by_cases hW0 : desc.Width = 0
  · rw [hW0, changedRegions_width_zero]
    apply foldlM_keep
    intro b a
    simp [DetectMovement_row, wrapInt_zero]
  · by_cases hH0 : desc.Height = 0
    · rw [hH0]
      simp [changedRegions, changedPixels, wrapInt_zero]
    · have h1 : 1 * cur.RowPitch ≤ desc.Height * cur.RowPitch :=
        Nat.mul_le_mul_right _ (by omega)
      have h2 : desc.Height * 4 ≤ desc.Height * cur.RowPitch :=
        Nat.mul_le_mul_left _ (by omega)
      have hWr : desc.Width < 2147483648 := by omega
      have hHr : desc.Height < 2147483648 := by omega
      rw [wrapInt_natCast _ hWr, wrapInt_natCast _ hHr, Int.toNat_natCast]
      exact DetectMovement_rows_upto desc cur prev ⟨hW, hH, hL⟩ hp desc.Height
        (Nat.le_refl _)

/-- The state `DetectMovement` leaves when both mappings succeed. -/
theorem DetectMovement_of_mapped (s : State) (i : MapInput) (current previous : ID3D11Texture2D)
    (hcur : s.acquiredDesktopImage = some current) (hprev : s.previousFrame = some previous)
    (hmc : FAILED i.hrCurrent = false) (hmp : FAILED i.hrPrevious = false)
    (hvc : ValidView current.desc (mapped current))
    (hlen : current.desc.Height * current.RowPitch ≤ previous.bytes.length) :
    DetectMovement s i =
      some (changedRegions current.desc.Width current.desc.Height (mapped current)
          (D3D11_MAPPED_SUBRESOURCE.mk previous.bytes current.RowPitch),
        { s with
          previousFrame := some (CopyResource previous current)
          trace := s.trace ++
            [Event.LogInfo "Detecting movement...",
             Event.Map Resource.acquiredDesktopImage i.hrCurrent,
             Event.Map Resource.previousFrame i.hrPrevious,
             Event.Unmap Resource.acquiredDesktopImage,
             Event.Unmap Resource.previousFrame,
             Event.CopyResource Resource.previousFrame Resource.acquiredDesktopImage,
             Event.LogInfo "Movement detection completed."] }) := by
  have hscan := DetectMovement_scan_of_valid current.desc (mapped current) (mapped previous)
    hvc hlen
  unfold DetectMovement
  simp only [LogInfo, emit, hcur, hprev, hmc, hmp, hscan]
  simp [mapped]

/-! ## Lemmas: the reference region list -/

theorem changedRegions_same (W H : Nat) (v : D3D11_MAPPED_SUBRESOURCE) :
    changedRegions W H v v = [] := by
  simp [changedRegions, changedPixels, pixelChanged]

theorem mem_changedPixels (W H : Nat) (cur prev : D3D11_MAPPED_SUBRESOURCE) (x y : Nat) :
    (x, y) ∈ changedPixels W H cur prev ↔
      x < W ∧ y < H ∧ pixelBytes cur x y ≠ pixelBytes prev x y := by
  simp only [changedPixels, List.mem_flatMap, List.mem_map, List.mem_filter, List.mem_range,
    pixelChanged, decide_eq_true_eq, Prod.mk.injEq]
  constructor
  · rintro ⟨y1, hy1, x1, ⟨hx1, hne⟩, rfl, rfl⟩
    exact ⟨hx1, hy1, hne⟩
  · rintro ⟨hx, hy, hne⟩
    exact ⟨y, hy, x, ⟨hx, hne⟩, rfl, rfl⟩

theorem marker_covers (x y : Nat) : (marker x y).covers x y := by
  simp only [RECT.covers, marker]
  omega

theorem mapped_eq_of_pitch (current previous : ID3D11Texture2D)
    (hs : previous.RowPitch = current.RowPitch) :
    D3D11_MAPPED_SUBRESOURCE.mk previous.bytes current.RowPitch = mapped previous := by
  simp [mapped, hs]

theorem changedPixels_congr (W H : Nat) (cur prev prev2 : D3D11_MAPPED_SUBRESOURCE)
    (h : ∀ x y, x < W → y < H → pixelBytes prev x y = pixelBytes prev2 x y) :
    changedPixels W H cur prev = changedPixels W H cur prev2 := by
  unfold changedPixels
  apply List.flatMap_congr
  intro y hy
  congr 1
  apply List.filter_congr
  intro x hx
  simp only [pixelChanged, h x y (List.mem_range.mp hx) (List.mem_range.mp hy)]

/-! ## Lemmas: `CopyResource` -/

theorem div_mod_of_row (pitch y r : Nat) (hr : r < pitch) :
    (y * pitch + r) / pitch = y ∧ (y * pitch + r) % pitch = r := by
  have hp : 0 < pitch := by omega
  constructor
  · rw [Nat.mul_comm, Nat.mul_add_div hp, Nat.div_eq_of_lt hr, Nat.add_zero]
  · rw [Nat.mul_comm, Nat.mul_add_mod, Nat.mod_eq_of_lt hr]

theorem CopyResource_bytes_length (dst src : ID3D11Texture2D) :
    (CopyResource dst src).bytes.length = dst.bytes.length := by
  unfold CopyResource
  split
  · simp
  · rfl

theorem CopyResource_RowPitch (dst src : ID3D11Texture2D) :
    (CopyResource dst src).RowPitch = dst.RowPitch := by
  unfold CopyResource
  split <;> rfl

/-- After `CopyResource(dst, src)` between textures of one width and height, every
pixel of the destination holds the four bytes of the same pixel of the source, each
texture read with its own row pitch. -/
theorem pixelBytes_CopyResource (dst src : ID3D11Texture2D)
    (hd : dst.desc.Width = src.desc.Width ∧ dst.desc.Height = src.desc.Height)
    (hvd : ValidView dst.desc (mapped dst)) (hvs : ValidView src.desc (mapped src))
    (x y : Nat) (hx : x < src.desc.Width) (hy : y < src.desc.Height) :
    pixelBytes (mapped (CopyResource dst src)) x y = pixelBytes (mapped src) x y := by
  obtain ⟨hdW, hdH, _⟩ := hvd
  obtain ⟨hsW, hsH, _⟩ := hvs
  simp only [mapped] at hdW hdH hsW hsH
  have hbd := pixel_offset_bound dst.desc.Width dst.desc.Height dst.RowPitch x y hdW
    (by omega) (by omega)
  have hbs := pixel_offset_bound src.desc.Width src.desc.Height src.RowPitch x y hsW hx hy
  unfold CopyResource
  rw [if_pos hd]
  simp only [pixelBytes, mapped]
  apply List.ext_getElem?
  intro k
  rw [List.getElem?_take, List.getElem?_take]
  by_cases hk : k < 4
  · rw [if_pos hk, if_pos hk, List.getElem?_drop, List.getElem?_drop, List.getElem?_mapIdx]
    have hdm := div_mod_of_row dst.RowPitch y (4 * x + k) (by omega)
    have e1 : y * dst.RowPitch + 4 * x + k = y * dst.RowPitch + (4 * x + k) := by omega
    have e2 : y * src.RowPitch + 4 * x + k = y * src.RowPitch + (4 * x + k) := by omega
    rw [e1, e2, List.getElem?_eq_getElem (by omega : y * dst.RowPitch + (4 * x + k) < dst.bytes.length)]
    simp only [Option.map_some', hdm.1, hdm.2]
    have hc : y < dst.desc.Height ∧ 4 * x + k < 4 * dst.desc.Width := by omega
    rw [if_pos hc, List.getD_eq_getElem?_getD,
      List.getElem?_eq_getElem (by omega : y * src.RowPitch + (4 * x + k) < src.bytes.length)]
    rfl
  · rw [if_neg hk, if_neg hk]

/-! ## Lemmas: the four paths of `CaptureFrame` -/

theorem CaptureFrame_uninitialized (s : State) (i : CaptureInput)
    (h : s.outputDuplication = false) :
    CaptureFrame s i =
      (false, { s with trace := s.trace ++
        [Event.LogInfo "Capturing frame...",
         Event.LogError "Output duplication not initialized."] }) := by
  simp [CaptureFrame, LogInfo, LogError, emit, h]

theorem CaptureFrame_acquire_failed (s : State) (i : CaptureInput)
    (h : s.outputDuplication = true) (ha : FAILED i.hrAcquire = true) :
    CaptureFrame s i =
      (false, { s with trace := s.trace ++
        [Event.LogInfo "Capturing frame...",
         Event.AcquireNextFrame 0 i.hrAcquire,
         Event.LogError "Failed to acquire next frame."] }) := by
  simp [CaptureFrame, LogInfo, LogError, emit, h, ha]

theorem CaptureFrame_query_failed (s : State) (i : CaptureInput)
    (h : s.outputDuplication = true) (ha : FAILED i.hrAcquire = false)
    (hq : FAILED i.hrQuery = true) :
    CaptureFrame s i =
      (false, { s with
        acquiredDesktopImage := none
        trace := s.trace ++
          [Event.LogInfo "Capturing frame...",
           Event.AcquireNextFrame 0 i.hrAcquire,
           Event.LogInfo "Next frame acquired successfully.",
           Event.QueryInterface i.hrQuery,
           Event.LogError "Failed to query interface for acquired desktop image.",
           Event.ReleaseFrame] }) := by
  simp [CaptureFrame, LogInfo, LogError, emit, h, ha, hq]

theorem CaptureFrame_success (s : State) (i : CaptureInput)
    (h : s.outputDuplication = true) (ha : FAILED i.hrAcquire = false)
    (hq : FAILED i.hrQuery = false) :
    CaptureFrame s i =
      (true, { s with
        acquiredDesktopImage := some i.desktopResource
        trace := s.trace ++
          [Event.LogInfo "Capturing frame...",
           Event.AcquireNextFrame 0 i.hrAcquire,
           Event.LogInfo "Next frame acquired successfully.",
           Event.QueryInterface i.hrQuery,
           Event.LogInfo "Acquired desktop image queried successfully.",
           Event.LogInfo (acquiredImageMessage i.desktopResource.desc),
           Event.ReleaseFrame] }) := by
  simp [CaptureFrame, LogInfo, emit, h, ha, hq]

/-! ## Lemmas: `InitFrameBuffers` -/

theorem InitFrameBuffers_success (s : State) (c : CreateInput) (image : ID3D11Texture2D)
    (himg : s.acquiredDesktopImage = some image) (hc : FAILED c.hrCreate = false) :
    InitFrameBuffers s c =
      (true, { s with
        previousFrame := some (ID3D11Texture2D.mk (stagingDesc image.desc) c.RowPitch c.bytes)
        trace := s.trace ++
          [Event.LogInfo "Initializing frame buffers...",
           Event.CreateTexture2D (stagingDesc image.desc) c.hrCreate,
           Event.LogInfo "Previous frame buffer created successfully."] }) := by
  simp [InitFrameBuffers, LogInfo, emit, himg, hc]

theorem changedRegions_eq_nil_iff (W H : Nat) (cur prev : D3D11_MAPPED_SUBRESOURCE) :
    changedRegions W H cur prev = [] ↔
      ∀ x y, x < W → y < H → pixelBytes cur x y = pixelBytes prev x y := by
  unfold changedRegions
  rw [List.map_eq_nil_iff, List.eq_nil_iff_forall_not_mem]
  constructor
  · intro h x y hx hy
    by_contra hne
    exact h (x, y) ((mem_changedPixels W H cur prev x y).mpr ⟨hx, hy, hne⟩)
  · rintro h ⟨x, y⟩ hmem
    obtain ⟨hx, hy, hne⟩ := (mem_changedPixels W H cur prev x y).mp hmem
    exact hne (h x y hx hy)

/-! ## Lemmas: traces -/

theorem foldl_emit (α : Type) (f : α → Event) (l : List α) (s : State) :
    l.foldl (fun s a => emit (f a) s) s = { s with trace := s.trace ++ l.map f } := by
  induction l generalizing s with
  | nil => simp
  | cons a l ih =>
    rw [List.foldl_cons, ih]
    simp [emit]

theorem RenderFrame_eq (s : State) :
    RenderFrame s =
      { s with trace := s.trace ++
        ([Event.ClearRenderTargetView (XMFLOAT4.mk 0 0 0 0), Event.VSSetShader,
          Event.PSSetShader, Event.IASetInputLayout] ++
          s.objects.map (fun obj => Event.Draw (objectVertices obj)) ++ [Event.Present]) } := by
  unfold RenderFrame
  simp only [foldl_emit]
  simp [emit]

theorem WindowProc_trace (s : State) (uMsg : Nat) (rect : RECT) :
    (WindowProc s uMsg rect).trace = s.trace ∧
      (WindowProc s uMsg rect).outputDuplication = s.outputDuplication ∧
      (WindowProc s uMsg rect).acquiredDesktopImage = s.acquiredDesktopImage ∧
      (WindowProc s uMsg rect).previousFrame = s.previousFrame := by
  unfold WindowProc UpdateObjectPositions
  split <;> simp

theorem frameSlot_append (held : Bool) (t u : List Event) :
    frameSlot held (t ++ u) = (frameSlot held t).bind fun h => frameSlot h u := by
  induction t generalizing held with
  | nil => simp [frameSlot]
  | cons e t ih =>
    rw [List.cons_append]
    cases e <;> cases held <;> simp [frameSlot, ih]

theorem frameSlot_neutral (held : Bool) (t : List Event)
    (h : ∀ e ∈ t, isSlotEvent e = false) : frameSlot held t = some held := by
  induction t with
  | nil => rfl
  | cons e t ih =>
    have he := h e (List.mem_cons_self e t)
    have ht := ih (fun e1 h1 => h e1 (List.mem_cons_of_mem e h1))
    cases e <;> simp_all [frameSlot, isSlotEvent]

theorem frameSlot_snoc_neutral (held : Bool) (t : List Event) (e : Event)
    (he : isSlotEvent e = false) : frameSlot held (t ++ [e]) = frameSlot held t := by
  rw [frameSlot_append]
  cases h : frameSlot held t with
  | none => rfl
  | some b => exact frameSlot_neutral b [e] (by simpa using he)

theorem frameSlot_append_neutral (held : Bool) (t u : List Event)
    (hu : ∀ e ∈ u, isSlotEvent e = false) : frameSlot held (t ++ u) = frameSlot held t := by
  rw [frameSlot_append]
  cases h : frameSlot held t with
  | none => rfl
  | some b => exact frameSlot_neutral b u hu

theorem DetectMovement_null_image (s : State) (i : MapInput)
    (h : s.acquiredDesktopImage = none) :
    DetectMovement s i =
      some ([], { s with trace := s.trace ++
        [Event.LogInfo "Detecting movement...",
         Event.LogError "Acquired desktop image is null."] }) := by
  unfold DetectMovement
  simp only [LogInfo, LogError, emit, h]
  simp

theorem DetectMovement_map_current_failed (s : State) (i : MapInput) (current : ID3D11Texture2D)
    (h : s.acquiredDesktopImage = some current) (hmc : FAILED i.hrCurrent = true) :
    DetectMovement s i =
      some ([], { s with trace := s.trace ++
        [Event.LogInfo "Detecting movement...",
         Event.Map Resource.acquiredDesktopImage i.hrCurrent,
         Event.LogError (mapCurrentFailedMessage i.hrCurrent)] }) := by
  simp [DetectMovement, LogInfo, LogError, emit, h, hmc]

theorem DetectMovement_null_previous (s : State) (i : MapInput) (current : ID3D11Texture2D)
    (h : s.acquiredDesktopImage = some current) (hmc : FAILED i.hrCurrent = false)
    (hp : s.previousFrame = none) :
    DetectMovement s i = none := by
  unfold DetectMovement
  simp only [LogInfo, LogError, emit, h, hmc, hp]
  simp

theorem DetectMovement_map_previous_failed (s : State) (i : MapInput)
    (current previous : ID3D11Texture2D)
    (h : s.acquiredDesktopImage = some current) (hmc : FAILED i.hrCurrent = false)
    (hp : s.previousFrame = some previous) (hmp : FAILED i.hrPrevious = true) :
    DetectMovement s i =
      some ([], { s with trace := s.trace ++
        [Event.LogInfo "Detecting movement...",
         Event.Map Resource.acquiredDesktopImage i.hrCurrent,
         Event.Map Resource.previousFrame i.hrPrevious,
         Event.LogError (mapPreviousFailedMessage i.hrPrevious),
         Event.Unmap Resource.acquiredDesktopImage] }) := by
  simp [DetectMovement, LogInfo, LogError, emit, h, hmc, hp, hmp]

theorem DetectMovement_scan_none (s : State) (i : MapInput)
    (current previous : ID3D11Texture2D)
    (h : s.acquiredDesktopImage = some current) (hmc : FAILED i.hrCurrent = false)
    (hp : s.previousFrame = some previous) (hmp : FAILED i.hrPrevious = false)
    (hscan : DetectMovement_scan (mapped current) (mapped previous) current.desc = none) :
    DetectMovement s i = none := by
  unfold DetectMovement
  simp only [LogInfo, LogError, emit, h, hmc, hp, hmp, hscan]
  simp

theorem DetectMovement_scan_some (s : State) (i : MapInput)
    (current previous : ID3D11Texture2D) (movingAreas : List RECT)
    (h : s.acquiredDesktopImage = some current) (hmc : FAILED i.hrCurrent = false)
    (hp : s.previousFrame = some previous) (hmp : FAILED i.hrPrevious = false)
    (hscan : DetectMovement_scan (mapped current) (mapped previous) current.desc =
      some movingAreas) :
    DetectMovement s i =
      some (movingAreas,
        { s with
          previousFrame := some (CopyResource previous current)
          trace := s.trace ++
            [Event.LogInfo "Detecting movement...",
             Event.Map Resource.acquiredDesktopImage i.hrCurrent,
             Event.Map Resource.previousFrame i.hrPrevious,
             Event.Unmap Resource.acquiredDesktopImage,
             Event.Unmap Resource.previousFrame,
             Event.CopyResource Resource.previousFrame Resource.acquiredDesktopImage,
             Event.LogInfo "Movement detection completed."] }) := by
  unfold DetectMovement
  simp only [LogInfo, LogError, emit, h, hmc, hp, hmp, hscan]
  simp

theorem DetectMovement_frameSlot (s : State) (i : MapInput) (areas : List RECT) (s1 : State)
    (h : DetectMovement s i = some (areas, s1)) (held : Bool) :
    frameSlot held s1.trace = frameSlot held s.trace := by
  cases hacq : s.acquiredDesktopImage with
  | none =>
    rw [DetectMovement_null_image s i hacq] at h
    simp only [Option.some.injEq, Prod.mk.injEq] at h
    rw [← h.2]
    exact frameSlot_append_neutral _ _ _ (by simp [isSlotEvent])
  | some current =>
    cases hmc : FAILED i.hrCurrent with
    | true =>
      rw [DetectMovement_map_current_failed s i current hacq hmc] at h
      simp only [Option.some.injEq, Prod.mk.injEq] at h
      rw [← h.2]
      exact frameSlot_append_neutral _ _ _ (by simp [isSlotEvent])
    | false =>
      cases hp : s.previousFrame with
      | none =>
        rw [DetectMovement_null_previous s i current hacq hmc hp] at h
        cases h
      | some previous =>
        cases hmp : FAILED i.hrPrevious with
        | true =>
          rw [DetectMovement_map_previous_failed s i current previous hacq hmc hp hmp] at h
          simp only [Option.some.injEq, Prod.mk.injEq] at h
          rw [← h.2]
          exact frameSlot_append_neutral _ _ _ (by simp [isSlotEvent])
        | false =>
          cases hscan : DetectMovement_scan (mapped current) (mapped previous) current.desc with
          | none =>
            rw [DetectMovement_scan_none s i current previous hacq hmc hp hmp hscan] at h
            cases h
          | some movingAreas =>
            rw [DetectMovement_scan_some s i current previous movingAreas hacq hmc hp hmp
              hscan] at h
            simp only [Option.some.injEq, Prod.mk.injEq] at h
            rw [← h.2]
            exact frameSlot_append_neutral _ _ _ (by simp [isSlotEvent])

theorem RenderOverlay_eq (s : State) (i : MapInput) :
    RenderOverlay s i =
      (DetectMovement (LogInfo "Rendering overlay..." s) i).map fun r =>
        { r.2 with trace := r.2.trace ++ r.1.map fun area => Event.Draw (areaVertices area) } := by
  unfold RenderOverlay
  simp only []
  generalize DetectMovement (LogInfo "Rendering overlay..." s) i = r
  cases r with
  | none => rfl
  | some p =>
    obtain ⟨areas, s2⟩ := p
    simp only [Option.map_some', foldl_emit]

theorem RenderOverlay_frameSlot (s : State) (i : MapInput) (s1 : State)
    (h : RenderOverlay s i = some s1) (held : Bool) :
    frameSlot held s1.trace = frameSlot held s.trace := by
  rw [RenderOverlay_eq] at h
  cases hd : DetectMovement (LogInfo "Rendering overlay..." s) i with
  | none =>
    rw [hd] at h
    cases h
  | some r =>
    obtain ⟨areas, s2⟩ := r
    rw [hd] at h
    simp only [Option.map_some', Option.some.injEq] at h
    rw [← h]
    simp only []
    rw [frameSlot_append_neutral _ _ _ (by simp [isSlotEvent]),
      DetectMovement_frameSlot _ i areas s2 hd held]
    exact frameSlot_snoc_neutral _ _ _ rfl

theorem RenderFrame_frameSlot (s : State) (held : Bool) :
    frameSlot held (RenderFrame s).trace = frameSlot held s.trace := by
  rw [RenderFrame_eq]
  simp only []
  apply frameSlot_append_neutral
  intro e he
  simp only [List.mem_append, List.mem_cons, List.mem_map, List.mem_singleton,
    List.not_mem_nil, or_false] at he
  rcases he with (((rfl | rfl | rfl | rfl) | ⟨obj, _, rfl⟩) | rfl) <;> rfl

/-! ## Lemmas: one pass of the message loop -/

theorem WinMain_tick_eq (s : State) (i : TickInput) :
    WinMain_tick s i =
      if (CaptureFrame (WindowProc (LogInfo (messageReceivedMessage i.message) s) i.message
          i.clientRect) i.capture).1 = true then
        (RenderOverlay (LogInfo "Frame captured successfully."
          (CaptureFrame (WindowProc (LogInfo (messageReceivedMessage i.message) s) i.message
            i.clientRect) i.capture).2) i.map).map RenderFrame
      else
        some (RenderFrame (LogError "Failed to capture frame."
          (CaptureFrame (WindowProc (LogInfo (messageReceivedMessage i.message) s) i.message
            i.clientRect) i.capture).2)) := by
  unfold WinMain_tick
  simp only []
  generalize CaptureFrame (WindowProc (LogInfo (messageReceivedMessage i.message) s) i.message
    i.clientRect) i.capture = r
  obtain ⟨ok, s1⟩ := r
  cases ok with
  | false => simp
  | true =>
    simp only [if_true]
    generalize RenderOverlay (LogInfo "Frame captured successfully." s1) i.map = q
    cases q <;> rfl

/-- Every path of `CaptureFrame` leaves the frame slot empty: the trace it appends
respects the protocol when started without an outstanding frame, and it contains one
`ReleaseFrame` exactly when `AcquireNextFrame` was called and succeeded. -/
theorem CaptureFrame_slot (s : State) (i : CaptureInput) :
    ∃ t, (CaptureFrame s i).2.trace = s.trace ++ t ∧
      t.count Event.ReleaseFrame =
        (if s.outputDuplication = true ∧ FAILED i.hrAcquire = false then 1 else 0) ∧
      frameSlot false t = some false := by
  cases hd : s.outputDuplication with
  | false =>
    rw [CaptureFrame_uninitialized s i hd]
    exact ⟨_, rfl, by simp, by simp [frameSlot]⟩
  | true =>
    cases ha : FAILED i.hrAcquire with
    | true =>
      rw [CaptureFrame_acquire_failed s i hd ha]
      exact ⟨_, rfl, by simp, by simp [frameSlot, ha]⟩
    | false =>
      cases hq : FAILED i.hrQuery with
      | true =>
        rw [CaptureFrame_query_failed s i hd ha hq]
        exact ⟨_, rfl, by simp, by simp [frameSlot, ha]⟩
      | false =>
        rw [CaptureFrame_success s i hd ha hq]
        exact ⟨_, rfl, by simp, by simp [frameSlot, ha]⟩

theorem CaptureFrame_frameSlot (s : State) (i : CaptureInput)
    (h : frameSlot false s.trace = some false) :
    frameSlot false (CaptureFrame s i).2.trace = some false := by
  obtain ⟨t, ht, _, hs⟩ := CaptureFrame_slot s i
  rw [ht, frameSlot_append, h]
  exact hs

theorem WinMain_tick_frameSlot (s : State) (i : TickInput) (s1 : State)
    (ht : WinMain_tick s i = some s1) (h : frameSlot false s.trace = some false) :
    frameSlot false s1.trace = some false := by
  have h0 : frameSlot false (WindowProc (LogInfo (messageReceivedMessage i.message) s)
      i.message i.clientRect).trace = some false := by
    rw [(WindowProc_trace _ _ _).1]
    simp only [LogInfo, emit]
    rw [frameSlot_snoc_neutral]
    · exact h
    · rfl
  have h1 := CaptureFrame_frameSlot _ i.capture h0
  rw [WinMain_tick_eq] at ht
  split at ht
  · cases hr : RenderOverlay (LogInfo "Frame captured successfully."
        (CaptureFrame (WindowProc (LogInfo (messageReceivedMessage i.message) s) i.message
          i.clientRect) i.capture).2) i.map with
    | none =>
      rw [hr] at ht
      cases ht
    | some s2 =>
      rw [hr] at ht
      simp only [Option.map_some', Option.some.injEq] at ht
      rw [← ht, RenderFrame_frameSlot, RenderOverlay_frameSlot _ _ _ hr]
      simp only [LogInfo, emit]
      rw [frameSlot_snoc_neutral]
      · exact h1
      · rfl
  · simp only [Option.some.injEq] at ht
    rw [← ht, RenderFrame_frameSlot]
    simp only [LogError, emit]
    rw [frameSlot_snoc_neutral]
    · exact h1
    · rfl

theorem WinMain_loop_frameSlot (inputs : List TickInput) (s s1 : State)
    (hl : WinMain_loop s inputs = some s1) (h : frameSlot false s.trace = some false) :
    frameSlot false s1.trace = some false := by
  induction inputs generalizing s with
  | nil =>
    simp only [WinMain_loop, Option.some.injEq] at hl
    rw [← hl]
    exact h
  | cons i rest ih =>
    unfold WinMain_loop at hl
    cases ht : WinMain_tick s i with
    | none =>
      rw [ht] at hl
      cases hl
    | some s2 =>
      rw [ht] at hl
      exact ih s2 hl (WinMain_tick_frameSlot s i s2 ht h)

theorem WindowProc_LogInfo (s : State) (m : String) (uMsg : Nat) (rect : RECT) :
    WindowProc (LogInfo m s) uMsg rect =
      { s with
        objects := (WindowProc s uMsg rect).objects
        trace := s.trace ++ [Event.LogInfo m] } := by
  unfold WindowProc UpdateObjectPositions
  split <;> simp [LogInfo, emit]

/-- A pass of the loop in which `AcquireNextFrame` fails. -/
theorem WinMain_tick_acquire_failed (s : State) (i : TickInput)
    (hd : s.outputDuplication = true) (ha : FAILED i.capture.hrAcquire = true) :
    WinMain_tick s i =
      some { s with
        objects := (WindowProc s i.message i.clientRect).objects
        trace := s.trace ++
          ([Event.LogInfo (messageReceivedMessage i.message),
            Event.LogInfo "Capturing frame...",
            Event.AcquireNextFrame 0 i.capture.hrAcquire,
            Event.LogError "Failed to acquire next frame.",
            Event.LogError "Failed to capture frame.",
            Event.ClearRenderTargetView (XMFLOAT4.mk 0 0 0 0), Event.VSSetShader,
            Event.PSSetShader, Event.IASetInputLayout] ++
            (WindowProc s i.message i.clientRect).objects.map
              (fun obj => Event.Draw (objectVertices obj)) ++ [Event.Present]) } := by
  rw [WinMain_tick_eq, WindowProc_LogInfo, CaptureFrame_acquire_failed _ i.capture ?_ ha]
  rotate_left
  · exact hd
  simp [RenderFrame_eq, LogError, emit]

/-- A pass of the loop in which the acquisition, the texture query and both mappings
succeed, on a valid current view and a previous buffer that holds its rows. -/
theorem WinMain_tick_success (s : State) (i : TickInput) (previous : ID3D11Texture2D)
    (hd : s.outputDuplication = true) (hp : s.previousFrame = some previous)
    (ha : FAILED i.capture.hrAcquire = false) (hq : FAILED i.capture.hrQuery = false)
    (hmc : FAILED i.map.hrCurrent = false) (hmp : FAILED i.map.hrPrevious = false)
    (hv : ValidView i.capture.desktopResource.desc (mapped i.capture.desktopResource))
    (hlen : i.capture.desktopResource.desc.Height * i.capture.desktopResource.RowPitch ≤
      previous.bytes.length) :
    WinMain_tick s i =
      some { s with
        objects := (WindowProc s i.message i.clientRect).objects
        acquiredDesktopImage := some i.capture.desktopResource
        previousFrame := some (CopyResource previous i.capture.desktopResource)
        trace := s.trace ++
          ([Event.LogInfo (messageReceivedMessage i.message),
            Event.LogInfo "Capturing frame...",
            Event.AcquireNextFrame 0 i.capture.hrAcquire,
            Event.LogInfo "Next frame acquired successfully.",
            Event.QueryInterface i.capture.hrQuery,
            Event.LogInfo "Acquired desktop image queried successfully.",
            Event.LogInfo (acquiredImageMessage i.capture.desktopResource.desc),
            Event.ReleaseFrame,
            Event.LogInfo "Frame captured successfully.",
            Event.LogInfo "Rendering overlay...",
            Event.LogInfo "Detecting movement...",
            Event.Map Resource.acquiredDesktopImage i.map.hrCurrent,
            Event.Map Resource.previousFrame i.map.hrPrevious,
            Event.Unmap Resource.acquiredDesktopImage,
            Event.Unmap Resource.previousFrame,
            Event.CopyResource Resource.previousFrame Resource.acquiredDesktopImage,
            Event.LogInfo "Movement detection completed."] ++
            (changedRegions i.capture.desktopResource.desc.Width
              i.capture.desktopResource.desc.Height (mapped i.capture.desktopResource)
              (D3D11_MAPPED_SUBRESOURCE.mk previous.bytes
                i.capture.desktopResource.RowPitch)).map
              (fun area => Event.Draw (areaVertices area)) ++
            [Event.ClearRenderTargetView (XMFLOAT4.mk 0 0 0 0), Event.VSSetShader,
              Event.PSSetShader, Event.IASetInputLayout] ++
            (WindowProc s i.message i.clientRect).objects.map
              (fun obj => Event.Draw (objectVertices obj)) ++ [Event.Present]) } := by
  rw [WinMain_tick_eq, WindowProc_LogInfo, CaptureFrame_success _ i.capture ?_ ha hq]
  rotate_left
  · exact hd
  simp only [if_true, RenderOverlay_eq]
  rw [DetectMovement_of_mapped _ i.map i.capture.desktopResource previous ?_ ?_ hmc hmp hv hlen]
  rotate_left
  · rfl
  · exact hp
  simp [RenderFrame_eq, LogInfo, emit]

/-! ## Lemmas: views of a trace -/

theorem filter_draws (p : Event → Bool) (hp : ∀ v, p (Event.Draw v) = true) (α : Type)
    (f : α → List Vertex) (l : List α) :
    (l.map fun a => Event.Draw (f a)).filter p = l.map fun a => Event.Draw (f a) := by
  rw [List.filter_eq_self]
  intro e he
  obtain ⟨a, _, rfl⟩ := List.mem_map.mp he
  exact hp _

theorem overlaySteps_region_draws (areas : List RECT) :
    (areas.map fun area => Event.Draw (areaVertices area)).filter isOverlayStep =
      areas.map fun area => Event.Draw (areaVertices area) := by
  rw [List.filter_eq_self]
  intro e he
  obtain ⟨a, _, rfl⟩ := List.mem_map.mp he
  simp [isOverlayStep, isRegionQuad, areaVertices]

theorem overlaySteps_demo_draws (objs : List MovingObject) :
    (objs.map fun obj => Event.Draw (objectVertices obj)).filter isOverlayStep = [] := by
  rw [List.filter_eq_nil_iff]
  intro e he
  obtain ⟨a, _, rfl⟩ := List.mem_map.mp he
  simp [isOverlayStep, isRegionQuad, objectVertices]

theorem eventsSince_append (s s1 : State) (t : List Event) (h : s1.trace = s.trace ++ t) :
    eventsSince s s1 = t := by
  unfold eventsSince
  rw [h, List.drop_left]

theorem messageReceivedMessage_ne (m : Nat) :
    "Detecting movement..." ≠ messageReceivedMessage m := by
  intro h
  have h1 := congrArg String.data h
  rw [messageReceivedMessage, String.data_append] at h1
  generalize (IntToString (wrapInt (m : Int))).data = rest at h1
  have h2 := congrArg List.head? h1
  simp at h2

theorem CaptureFrame_result_of_failed (s : State) (i : CaptureInput)
    (ha : FAILED i.hrAcquire = true) : (CaptureFrame s i).1 = false := by
  cases hd : s.outputDuplication with
  | false => rw [CaptureFrame_uninitialized s i hd]
  | true => rw [CaptureFrame_acquire_failed s i hd ha]

theorem CaptureFrame_calls_acquire (s : State) (i : CaptureInput)
    (hd : s.outputDuplication = true) :
    ∃ t, (CaptureFrame s i).2.trace =
        s.trace ++ (Event.LogInfo "Capturing frame..." ::
          Event.AcquireNextFrame 0 i.hrAcquire :: t) ∧
      ∀ e ∈ t, isInitEvent e = false := by
  cases ha : FAILED i.hrAcquire with
  | true =>
    rw [CaptureFrame_acquire_failed s i hd ha]
    exact ⟨_, rfl, by simp [isInitEvent]⟩
  | false =>
    cases hq : FAILED i.hrQuery with
    | true =>
      rw [CaptureFrame_query_failed s i hd ha hq]
      exact ⟨_, rfl, by simp [isInitEvent]⟩
    | false =>
      rw [CaptureFrame_success s i hd ha hq]
      exact ⟨_, rfl, by simp [isInitEvent]⟩

theorem next_pass_calls_acquire (s1 : State) (j : TickInput)
    (h1 : s1.outputDuplication = true) :
    ∃ t, (CaptureFrame (WindowProc (LogInfo (messageReceivedMessage j.message) s1) j.message
          j.clientRect) j.capture).2.trace =
        s1.trace ++ (Event.LogInfo (messageReceivedMessage j.message) ::
          Event.LogInfo "Capturing frame..." ::
          Event.AcquireNextFrame 0 j.capture.hrAcquire :: t) ∧
      ∀ e ∈ t, isInitEvent e = false := by
  obtain ⟨t, ht, hne⟩ := CaptureFrame_calls_acquire
    (WindowProc (LogInfo (messageReceivedMessage j.message) s1) j.message j.clientRect)
    j.capture (by rw [(WindowProc_trace _ _ _).2.1]; exact h1)
  refine ⟨t, ?_, hne⟩
  rw [ht, (WindowProc_trace _ _ _).1]
  simp [LogInfo, emit]

/-! ## Lemmas: the concrete frames -/

set_option maxRecDepth 100000

theorem changedRegions_frameB_frameA :
    changedRegions 11 11 (mapped frameB) (mapped frameA) = [RECT.mk 10 10 60 60] := by
  decide

/-! ## C1 to C3: what `DetectMovement` returns -/

/-- C1 (coverage). For a current and a previous view of the same width, height and row
stride, every pixel `(x, y)` inside the frame whose four bytes differ between the two
views lies in at least one rectangle of the list `DetectMovement` returns. -/
theorem C1_coverage (s : State) (i : MapInput) (current previous : ID3D11Texture2D)
    (hcur : s.acquiredDesktopImage = some current) (hprev : s.previousFrame = some previous)
    (hmc : FAILED i.hrCurrent = false) (hmp : FAILED i.hrPrevious = false)
    (hvc : ValidView current.desc (mapped current))
    (hvp : ValidView current.desc (mapped previous))
    (hs : previous.RowPitch = current.RowPitch)
    (x y : Nat) (hx : x < current.desc.Width) (hy : y < current.desc.Height)
    (hch : pixelBytes (mapped current) x y ≠ pixelBytes (mapped previous) x y) :
    ∃ movingAreas s1, DetectMovement s i = some (movingAreas, s1) ∧
      ∃ r ∈ movingAreas, r.covers x y := by
  have hlen : current.desc.Height * current.RowPitch ≤ previous.bytes.length := by
    have h := hvp.2.1
    simpa [mapped, hs] using h
  refine ⟨_, _, DetectMovement_of_mapped s i current previous hcur hprev hmc hmp hvc hlen, ?_⟩
  rw [mapped_eq_of_pitch current previous hs]
  refine ⟨marker x y, ?_, marker_covers x y⟩
  simp only [changedRegions, List.mem_map]
  exact ⟨(x, y), (mem_changedPixels _ _ _ _ x y).mpr ⟨hx, hy, hch⟩, rfl⟩

/-- Witness of C1: with frame A all zero as previous and frame B (pixel `(10, 10)` set
to `(255, 0, 0, 255)`) as current, the returned list has a rectangle covering
`(10, 10)`. -/
theorem C1_coverage_witness :
    ∃ movingAreas s1, DetectMovement (stateWith frameB frameA) mapsOk = some (movingAreas, s1) ∧
      ∃ r ∈ movingAreas, r.covers 10 10 :=
  C1_coverage (stateWith frameB frameA) mapsOk frameB frameA rfl rfl (by decide) (by decide)
    (by decide) (by decide) rfl 10 10 (by decide) (by decide) (by decide)

/-- C2 (no change). When the previous buffer holds the same bytes as the current one,
`DetectMovement` returns the empty list, for every width, height, row pitch and
content of a valid view. -/
theorem C2_identical_empty (s : State) (i : MapInput) (current previous : ID3D11Texture2D)
    (hcur : s.acquiredDesktopImage = some current) (hprev : s.previousFrame = some previous)
    (hmc : FAILED i.hrCurrent = false) (hmp : FAILED i.hrPrevious = false)
    (hvc : ValidView current.desc (mapped current))
    (hbytes : previous.bytes = current.bytes) :
    ∃ s1, DetectMovement s i = some ([], s1) := by
  have hlen : current.desc.Height * current.RowPitch ≤ previous.bytes.length := by
    rw [hbytes]
    exact hvc.2.1
  have hv : D3D11_MAPPED_SUBRESOURCE.mk previous.bytes current.RowPitch = mapped current := by
    simp [mapped, hbytes]
  rw [DetectMovement_of_mapped s i current previous hcur hprev hmc hmp hvc hlen, hv,
    changedRegions_same]
  exact ⟨_, rfl⟩

/-- Witness of C2: frame A against frame A gives the empty list. -/
theorem C2_identical_empty_witness :
    ∃ s1, DetectMovement (stateWith frameA frameA) mapsOk = some ([], s1) :=
  C2_identical_empty (stateWith frameA frameA) mapsOk frameA frameA rfl rfl (by decide)
    (by decide) (by decide) rfl

/-- C3 (output policy). For a current and a previous view of the same width, height and
row stride, `DetectMovement` returns exactly the markers `(x, y, x + 50, y + 50)` of
the changed pixels in row-major scan order: one region per changed pixel, no merging,
and every region has `left < right` and `top < bottom`. -/
theorem C3_output_policy (s : State) (i : MapInput) (current previous : ID3D11Texture2D)
    (hcur : s.acquiredDesktopImage = some current) (hprev : s.previousFrame = some previous)
    (hmc : FAILED i.hrCurrent = false) (hmp : FAILED i.hrPrevious = false)
    (hvc : ValidView current.desc (mapped current))
    (hvp : ValidView current.desc (mapped previous))
    (hs : previous.RowPitch = current.RowPitch) :
    ∃ movingAreas s1, DetectMovement s i = some (movingAreas, s1) ∧
      movingAreas =
        (changedPixels current.desc.Width current.desc.Height (mapped current)
          (mapped previous)).map (fun p => RECT.mk p.1 p.2 (p.1 + 50) (p.2 + 50)) ∧
      movingAreas.length =
        (changedPixels current.desc.Width current.desc.Height (mapped current)
          (mapped previous)).length ∧
      ∀ r ∈ movingAreas, r.left < r.right ∧ r.top < r.bottom := by
  have hlen : current.desc.Height * current.RowPitch ≤ previous.bytes.length := by
    have h := hvp.2.1
    simpa [mapped, hs] using h
  refine ⟨_, _, DetectMovement_of_mapped s i current previous hcur hprev hmc hmp hvc hlen, ?_⟩
  rw [mapped_eq_of_pitch current previous hs]
  refine ⟨rfl, by simp [changedRegions], ?_⟩
  intro r hr
  simp only [changedRegions, List.mem_map] at hr
  obtain ⟨p, _, rfl⟩ := hr
  simp only [marker]
  omega

/-- Witness of C3: frame B against frame A gives the single marker of pixel
`(10, 10)`. -/
theorem C3_output_policy_witness :
    changedPixels 11 11 (mapped frameB) (mapped frameA) = [(10, 10)] ∧
    ∃ movingAreas s1, DetectMovement (stateWith frameB frameA) mapsOk = some (movingAreas, s1) ∧
      movingAreas =
        (changedPixels frameB.desc.Width frameB.desc.Height (mapped frameB)
          (mapped frameA)).map (fun p => RECT.mk p.1 p.2 (p.1 + 50) (p.2 + 50)) ∧
      movingAreas.length =
        (changedPixels frameB.desc.Width frameB.desc.Height (mapped frameB)
          (mapped frameA)).length ∧
      ∀ r ∈ movingAreas, r.left < r.right ∧ r.top < r.bottom :=
  ⟨by decide,
    C3_output_policy (stateWith frameB frameA) mapsOk frameB frameA rfl rfl (by decide)
      (by decide) (by decide) (by decide) rfl⟩

/-! ## C4: the copy at the end of `DetectMovement` is the next baseline -/

/-- The baseline when the previous buffer and the two frames are mapped with one row
pitch. After a `DetectMovement` on current frame `F1` in which both mappings succeed,
every pixel of the previous buffer holds the bytes of `F1`; when the next
`CaptureFrame` adopts a frame `F2` of the same dimensions and row pitch, the following
`DetectMovement` returns exactly the regions of `F2` against `F1`. -/
theorem commit_baseline_of_equal_pitch (s : State) (i1 i2 : MapInput) (c : CaptureInput)
    (F1 F2 P : ID3D11Texture2D)
    (hcur : s.acquiredDesktopImage = some F1) (hprev : s.previousFrame = some P)
    (hdup : s.outputDuplication = true)
    (hm1 : FAILED i1.hrCurrent = false ∧ FAILED i1.hrPrevious = false)
    (hm2 : FAILED i2.hrCurrent = false ∧ FAILED i2.hrPrevious = false)
    (hc : FAILED c.hrAcquire = false ∧ FAILED c.hrQuery = false ∧ c.desktopResource = F2)
    (hdP : P.desc.Width = F1.desc.Width ∧ P.desc.Height = F1.desc.Height)
    (hd2 : F2.desc.Width = F1.desc.Width ∧ F2.desc.Height = F1.desc.Height)
    (hpP : P.RowPitch = F1.RowPitch) (hp2 : F2.RowPitch = F1.RowPitch)
    (hv1 : ValidView F1.desc (mapped F1)) (hvP : ValidView P.desc (mapped P))
    (hv2 : ValidView F2.desc (mapped F2)) :
    ∃ areas1 s1 committed, DetectMovement s i1 = some (areas1, s1) ∧
      s1.previousFrame = some committed ∧
      (∀ x y, x < F1.desc.Width → y < F1.desc.Height →
        pixelBytes (mapped committed) x y = pixelBytes (mapped F1) x y) ∧
      ∃ areas2 s3, DetectMovement (CaptureFrame s1 c).2 i2 = some (areas2, s3) ∧
        areas2 = changedRegions F2.desc.Width F2.desc.Height (mapped F2) (mapped F1) := by
  obtain ⟨hca, hcq, rfl⟩ := hc
  have hPlen : P.desc.Height * P.RowPitch ≤ P.bytes.length := hvP.2.1
  have hlen1 : F1.desc.Height * F1.RowPitch ≤ P.bytes.length := by
    rw [← hdP.2, ← hpP]
    exact hPlen
  have h1 := DetectMovement_of_mapped s i1 F1 P hcur hprev hm1.1 hm1.2 hv1 hlen1
  have hpix : ∀ x y, x < F1.desc.Width → y < F1.desc.Height →
      pixelBytes (mapped (CopyResource P F1)) x y = pixelBytes (mapped F1) x y :=
    fun x y hx hy => pixelBytes_CopyResource P F1 hdP hvP hv1 x y hx hy
  refine ⟨_, _, CopyResource P F1, h1, rfl, hpix, ?_⟩
  rw [CaptureFrame_success _ c ?_ hca hcq]
  rotate_left
  · exact hdup
  have hlen2 : c.desktopResource.desc.Height * c.desktopResource.RowPitch ≤
      (CopyResource P F1).bytes.length := by
    rw [CopyResource_bytes_length, hd2.2, hp2]
    exact hlen1
  refine ⟨_, _, DetectMovement_of_mapped _ i2 c.desktopResource (CopyResource P F1) rfl rfl
    hm2.1 hm2.2 hv2 hlen2, ?_⟩
  have hm : D3D11_MAPPED_SUBRESOURCE.mk (CopyResource P F1).bytes c.desktopResource.RowPitch =
      mapped (CopyResource P F1) := by
    simp [mapped, CopyResource_RowPitch, hp2, hpP]
  rw [hm]
  unfold changedRegions
  rw [changedPixels_congr _ _ _ _ (mapped F1) (fun x y hx hy => hpix x y (by omega) (by omega))]

/-- The equal-pitch baseline at concrete frames: the previous buffer starts as frame B,
frame A is diffed and committed, then frame B is adopted; the second diff is B against
A, the single marker of pixel `(10, 10)`. -/
theorem commit_baseline_of_equal_pitch_frames :
    changedRegions 11 11 (mapped frameB) (mapped frameA) = [RECT.mk 10 10 60 60] ∧
    ∃ areas1 s1 committed, DetectMovement (stateWith frameA frameB) mapsOk = some (areas1, s1) ∧
      s1.previousFrame = some committed ∧
      (∀ x y, x < frameA.desc.Width → y < frameA.desc.Height →
        pixelBytes (mapped committed) x y = pixelBytes (mapped frameA) x y) ∧
      ∃ areas2 s3,
        DetectMovement (CaptureFrame s1 (CaptureInput.mk 0 frameB 0)).2 mapsOk =
          some (areas2, s3) ∧
        areas2 = changedRegions frameB.desc.Width frameB.desc.Height (mapped frameB)
          (mapped frameA) :=
  ⟨changedRegions_frameB_frameA,
    commit_baseline_of_equal_pitch (stateWith frameA frameB) mapsOk mapsOk (CaptureInput.mk 0 frameB 0)
      frameA frameB frameB rfl rfl rfl (by decide) (by decide) (by decide) (by decide)
      (by decide) rfl rfl (by decide) (by decide) (by decide)⟩

/-- C4 at a previous buffer whose row pitch differs from the one of the frames. The
previous buffer is the 2 by 2 staging texture of pitch 12, and the frame of pitch 8 is
diffed and committed: afterwards every pixel of the previous buffer holds the bytes of
that frame. The same frame is adopted again, so the regions of the new frame against
the committed one are none; the following `DetectMovement` reads the previous buffer
with the pitch of the current frame and returns the marker of pixel `(0, 1)`. -/
theorem C4_baseline_misread_under_pitch_mismatch :
    changedRegions 2 2 (mapped frameTight) (mapped frameTight) = [] ∧
    ∃ areas1 s1 committed,
      DetectMovement (stateWith frameTight framePadded) mapsOk = some (areas1, s1) ∧
      s1.previousFrame = some committed ∧
      (∀ x y, x < 2 → y < 2 →
        pixelBytes (mapped committed) x y = pixelBytes (mapped frameTight) x y) ∧
      changedRegions 2 2 (mapped frameTight) (mapped committed) = [] ∧
      ∃ s3, DetectMovement (CaptureFrame s1 (captureOk frameTight)).2 mapsOk =
        some ([RECT.mk 0 1 50 51], s3) := by
  refine ⟨by decide, _, _, CopyResource framePadded frameTight,
    DetectMovement_of_mapped (stateWith frameTight framePadded) mapsOk frameTight framePadded
      rfl rfl (by decide) (by decide) (by decide) (by decide),
    rfl, ?_, by decide, ?_⟩
  · intro x y hx hy
    exact pixelBytes_CopyResource framePadded frameTight (by decide) (by decide) (by decide)
      x y hx hy
  · rw [CaptureFrame_success _ (captureOk frameTight) rfl (by decide) (by decide),
      DetectMovement_of_mapped _ mapsOk frameTight (CopyResource framePadded frameTight)
        rfl rfl (by decide) (by decide) (by decide) (by decide)]
    have hr : changedRegions frameTight.desc.Width frameTight.desc.Height (mapped frameTight)
        (D3D11_MAPPED_SUBRESOURCE.mk (CopyResource framePadded frameTight).bytes
          frameTight.RowPitch) = [RECT.mk 0 1 50 51] := by
      decide
    exact ⟨_, by rw [hr]⟩

/-! ## C5: the first diff after `InitFrameBuffers` -/

/-- Counterexample to C5 as stated: the previous buffer is created with all bytes zero,
the first frame diffed is frame B, both mappings succeed, and the first
`DetectMovement` after `InitFrameBuffers` returns a region, not the empty list. -/
theorem C5_counterexample :
    ∃ s3,
      DetectMovement
        (CaptureFrame (InitFrameBuffers (stateBeforeInit frameA) createZero).2
          (captureOk frameB)).2 mapsOk = some ([RECT.mk 10 10 60 60], s3) := by
  rw [InitFrameBuffers_success (stateBeforeInit frameA) createZero frameA rfl (by decide),
    CaptureFrame_success _ (captureOk frameB) rfl (by decide) (by decide),
    DetectMovement_of_mapped _ mapsOk frameB
      (ID3D11Texture2D.mk (stagingDesc frameA.desc) 44 (List.replicate 484 0))
      rfl rfl (by decide) (by decide) (by decide) (by decide)]
  have hr : changedRegions frameB.desc.Width frameB.desc.Height (mapped frameB)
      (D3D11_MAPPED_SUBRESOURCE.mk (List.replicate 484 0) frameB.RowPitch) =
      [RECT.mk 10 10 60 60] :=
    changedRegions_frameB_frameA
  exact ⟨_, by rw [hr]⟩

/-- C5 (as the code behaves). The first `DetectMovement` after `InitFrameBuffers` has no
special case for a missing baseline: when both mappings succeed and the freshly
created previous buffer is mapped with the row pitch of the current frame, it compares
the current frame with the bytes that buffer happens to hold and returns one region
per differing pixel, so the list is empty exactly when no pixel of the current frame
differs from those bytes. -/
theorem C5_first_diff_uses_uninitialised (s : State) (c : CreateInput) (cap : CaptureInput)
    (i : MapInput) (image : ID3D11Texture2D)
    (himg : s.acquiredDesktopImage = some image) (hdup : s.outputDuplication = true)
    (hc : FAILED c.hrCreate = false)
    (hcap : FAILED cap.hrAcquire = false ∧ FAILED cap.hrQuery = false)
    (hm : FAILED i.hrCurrent = false ∧ FAILED i.hrPrevious = false)
    (hv : ValidView cap.desktopResource.desc (mapped cap.desktopResource))
    (hp : c.RowPitch = cap.desktopResource.RowPitch)
    (hlen : cap.desktopResource.desc.Height * c.RowPitch ≤ c.bytes.length) :
    ∃ movingAreas s3,
      DetectMovement (CaptureFrame (InitFrameBuffers s c).2 cap).2 i = some (movingAreas, s3) ∧
      movingAreas =
        changedRegions cap.desktopResource.desc.Width cap.desktopResource.desc.Height
          (mapped cap.desktopResource) (D3D11_MAPPED_SUBRESOURCE.mk c.bytes c.RowPitch) ∧
      (movingAreas = [] ↔
        ∀ x y, x < cap.desktopResource.desc.Width → y < cap.desktopResource.desc.Height →
          pixelBytes (mapped cap.desktopResource) x y =
            pixelBytes (D3D11_MAPPED_SUBRESOURCE.mk c.bytes c.RowPitch) x y) := by
  rw [InitFrameBuffers_success s c image himg hc, CaptureFrame_success _ cap ?_ hcap.1 hcap.2]
  rotate_left
  · exact hdup
  refine ⟨_, _, DetectMovement_of_mapped _ i cap.desktopResource _ rfl rfl hm.1 hm.2 hv
    (by rw [← hp]; exact hlen), ?_, ?_⟩
  · simp only [hp]
  · simp only [hp]
    exact changedRegions_eq_nil_iff _ _ _ _

/-- Witness of C5 as amended: frame B is the first frame diffed after the previous
buffer was created with all bytes zero. -/
theorem C5_first_diff_uses_uninitialised_witness :
    ∃ movingAreas s3,
      DetectMovement
        (CaptureFrame (InitFrameBuffers (stateBeforeInit frameA) createZero).2
          (captureOk frameB)).2 mapsOk = some (movingAreas, s3) ∧
      movingAreas =
        changedRegions (captureOk frameB).desktopResource.desc.Width
          (captureOk frameB).desktopResource.desc.Height
          (mapped (captureOk frameB).desktopResource)
          (D3D11_MAPPED_SUBRESOURCE.mk createZero.bytes createZero.RowPitch) ∧
      (movingAreas = [] ↔
        ∀ x y, x < (captureOk frameB).desktopResource.desc.Width →
          y < (captureOk frameB).desktopResource.desc.Height →
          pixelBytes (mapped (captureOk frameB).desktopResource) x y =
            pixelBytes (D3D11_MAPPED_SUBRESOURCE.mk createZero.bytes createZero.RowPitch) x y) :=
  C5_first_diff_uses_uninitialised (stateBeforeInit frameA) createZero (captureOk frameB)
    mapsOk frameA rfl rfl (by decide) (by decide) (by decide) (by decide) rfl (by decide)

/-! ## C6: acquire and release are paired -/

/-- C6 (acquire/release pairing). Every execution of `CaptureFrame` appends a trace
with exactly one `ReleaseFrame` when `AcquireNextFrame` was called and succeeded (also
when the texture query fails afterwards) and with none when it failed or the
duplication object is missing; hence, along every run of the message loop that starts
without an outstanding frame, `AcquireNextFrame` is never called while a frame is
outstanding and no frame is outstanding at the end. -/
theorem C6_acquire_release_pairing (s : State) :
    (∀ i : CaptureInput, ∃ t, (CaptureFrame s i).2.trace = s.trace ++ t ∧
      t.count Event.ReleaseFrame =
        (if s.outputDuplication = true ∧ FAILED i.hrAcquire = false then 1 else 0) ∧
      frameSlot false t = some false) ∧
    (∀ (inputs : List TickInput) (s1 : State), frameSlot false s.trace = some false →
      WinMain_loop s inputs = some s1 → frameSlot false s1.trace = some false) :=
  ⟨fun i => CaptureFrame_slot s i,
    fun inputs s1 h hl => WinMain_loop_frameSlot inputs s s1 hl h⟩

/-- Witness of C6: a pass that captures frame B followed by a pass in which
`AcquireNextFrame` times out; the loop returns and its trace respects the frame
slot. -/
theorem C6_acquire_release_pairing_witness :
    frameSlot false (stateWith frameA frameA).trace = some false ∧
    ∃ s1, WinMain_loop (stateWith frameA frameA)
        [timerTick (captureOk frameB), timerTick (captureFailing DXGI_ERROR_WAIT_TIMEOUT)] =
          some s1 ∧
      frameSlot false s1.trace = some false := by
  have hl : ∃ s1, WinMain_loop (stateWith frameA frameA)
      [timerTick (captureOk frameB), timerTick (captureFailing DXGI_ERROR_WAIT_TIMEOUT)] =
        some s1 := by
    simp only [WinMain_loop]
    rw [WinMain_tick_success (stateWith frameA frameA) (timerTick (captureOk frameB)) frameA
      rfl rfl (by decide) (by decide) (by decide) (by decide) (by decide) (by decide)]
    simp only []
    rw [WinMain_tick_acquire_failed _ (timerTick (captureFailing DXGI_ERROR_WAIT_TIMEOUT))
      rfl (by decide)]
    exact ⟨_, rfl⟩
  obtain ⟨s1, hs1⟩ := hl
  exact ⟨rfl, s1, hs1,
    (C6_acquire_release_pairing (stateWith frameA frameA)).2 _ s1 rfl hs1⟩

/-! ## C7: the order of a pass that captures a frame -/

/-- Counterexample to C7 as stated: in the pass that captures frame B over the
previous frame A, `ReleaseFrame` comes before the two `Map` calls and the
`CopyResource` that read the acquired image, and the `CopyResource` comes before the
draw of the region. -/
theorem C7_counterexample :
    (WinMain_tick (stateWith frameA frameA) (timerTick (captureOk frameB))).map
        (fun s1 => deviceEvents (eventsSince (stateWith frameA frameA) s1)) =
      some ([Event.AcquireNextFrame 0 0, Event.QueryInterface 0, Event.ReleaseFrame,
        Event.Map Resource.acquiredDesktopImage 0, Event.Map Resource.previousFrame 0,
        Event.Unmap Resource.acquiredDesktopImage, Event.Unmap Resource.previousFrame,
        Event.CopyResource Resource.previousFrame Resource.acquiredDesktopImage,
        Event.Draw (areaVertices (RECT.mk 10 10 60 60)),
        Event.ClearRenderTargetView (XMFLOAT4.mk 0 0 0 0), Event.VSSetShader,
        Event.PSSetShader, Event.IASetInputLayout] ++
        demoDraws (WindowProc (stateWith frameA frameA) WM_TIMER (RECT.mk 0 0 1920 1080)).objects ++
        [Event.Present]) := by
  rw [WinMain_tick_success (stateWith frameA frameA) (timerTick (captureOk frameB)) frameA
    rfl rfl (by decide) (by decide) (by decide) (by decide) (by decide) (by decide)]
  have hr : changedRegions (timerTick (captureOk frameB)).capture.desktopResource.desc.Width
      (timerTick (captureOk frameB)).capture.desktopResource.desc.Height
      (mapped (timerTick (captureOk frameB)).capture.desktopResource)
      (D3D11_MAPPED_SUBRESOURCE.mk frameA.bytes
        (timerTick (captureOk frameB)).capture.desktopResource.RowPitch) =
      [RECT.mk 10 10 60 60] :=
    changedRegions_frameB_frameA
  rw [hr, Option.map_some', eventsSince_append _ _ _ rfl]
  simp only [deviceEvents, List.filter_append,
    filter_draws (fun e => !isLog e) (fun _ => rfl), demoDraws]
  rfl

/-- C7 (as the code behaves). In every pass of the loop in which the acquisition, the
texture query and both mappings succeed, the steps on the acquired frame occur in this
order: the current frame is adopted, the change detector maps and compares it against
the previous frame and unmaps, the current frame is copied into the previous one, and
then the overlay regions are drawn. -/
theorem C7_tick_order (s : State) (i : TickInput) (previous : ID3D11Texture2D)
    (hd : s.outputDuplication = true) (hp : s.previousFrame = some previous)
    (ha : FAILED i.capture.hrAcquire = false) (hq : FAILED i.capture.hrQuery = false)
    (hmc : FAILED i.map.hrCurrent = false) (hmp : FAILED i.map.hrPrevious = false)
    (hv : ValidView i.capture.desktopResource.desc (mapped i.capture.desktopResource))
    (hlen : i.capture.desktopResource.desc.Height * i.capture.desktopResource.RowPitch ≤
      previous.bytes.length) :
    ∃ s1, WinMain_tick s i = some s1 ∧
      s1.acquiredDesktopImage = some i.capture.desktopResource ∧
      overlaySteps (eventsSince s s1) =
        [Event.QueryInterface i.capture.hrQuery,
          Event.Map Resource.acquiredDesktopImage i.map.hrCurrent,
          Event.Map Resource.previousFrame i.map.hrPrevious,
          Event.Unmap Resource.acquiredDesktopImage,
          Event.Unmap Resource.previousFrame,
          Event.CopyResource Resource.previousFrame Resource.acquiredDesktopImage] ++
        regionDraws (changedRegions i.capture.desktopResource.desc.Width
          i.capture.desktopResource.desc.Height (mapped i.capture.desktopResource)
          (D3D11_MAPPED_SUBRESOURCE.mk previous.bytes i.capture.desktopResource.RowPitch)) := by
  refine ⟨_, WinMain_tick_success s i previous hd hp ha hq hmc hmp hv hlen, rfl, ?_⟩
  rw [eventsSince_append _ _ _ rfl]
  simp only [overlaySteps, List.filter_append, overlaySteps_region_draws,
    overlaySteps_demo_draws, regionDraws, List.filter_cons, List.filter_nil, isOverlayStep,
    if_true, Bool.false_eq_true, if_false, List.append_nil]

/-- Witness of C7 as amended: the pass that captures frame B over the previous
frame A. -/
theorem C7_tick_order_witness :
    ∃ s1, WinMain_tick (stateWith frameA frameA) (timerTick (captureOk frameB)) = some s1 ∧
      s1.acquiredDesktopImage = some frameB ∧
      overlaySteps (eventsSince (stateWith frameA frameA) s1) =
        [Event.QueryInterface 0,
          Event.Map Resource.acquiredDesktopImage 0,
          Event.Map Resource.previousFrame 0,
          Event.Unmap Resource.acquiredDesktopImage,
          Event.Unmap Resource.previousFrame,
          Event.CopyResource Resource.previousFrame Resource.acquiredDesktopImage] ++
        regionDraws (changedRegions 11 11 (mapped frameB)
          (D3D11_MAPPED_SUBRESOURCE.mk frameA.bytes 44)) :=
  C7_tick_order (stateWith frameA frameA) (timerTick (captureOk frameB)) frameA rfl rfl
    (by decide) (by decide) (by decide) (by decide) (by decide) (by decide)

/-! ## C8: a pass without a new frame -/

/-- C8 (no new frame). In every pass of the loop in which the zero-timeout
`AcquireNextFrame` fails, `CaptureFrame` returns false, `DetectMovement` is not
invoked (no log line of it, no `Map`, no `CopyResource`), the previous buffer is left
unchanged, and the pass still completes with the clear, the demo quads and the
present. -/
theorem C8_no_new_frame (s : State) (i : TickInput)
    (hd : s.outputDuplication = true) (ha : FAILED i.capture.hrAcquire = true) :
    (∀ s0 : State, (CaptureFrame s0 i.capture).1 = false) ∧
    ∃ s1, WinMain_tick s i = some s1 ∧
      s1.previousFrame = s.previousFrame ∧
      Event.LogInfo "Detecting movement..." ∉ eventsSince s s1 ∧
      (∀ r hr, Event.Map r hr ∉ eventsSince s s1) ∧
      (∀ dst src, Event.CopyResource dst src ∉ eventsSince s s1) ∧
      deviceEvents (eventsSince s s1) =
        [Event.AcquireNextFrame 0 i.capture.hrAcquire,
          Event.ClearRenderTargetView (XMFLOAT4.mk 0 0 0 0), Event.VSSetShader,
          Event.PSSetShader, Event.IASetInputLayout] ++
        demoDraws s1.objects ++ [Event.Present] := by
  refine ⟨fun s0 => CaptureFrame_result_of_failed s0 i.capture ha, _,
    WinMain_tick_acquire_failed s i hd ha, rfl, ?_, ?_, ?_, ?_⟩
  · rw [eventsSince_append _ _ _ rfl]
    simp [messageReceivedMessage_ne]
  · intro r hr
    rw [eventsSince_append _ _ _ rfl]
    simp
  · intro dst src
    rw [eventsSince_append _ _ _ rfl]
    simp
  · rw [eventsSince_append _ _ _ rfl]
    simp only [deviceEvents, List.filter_append,
      filter_draws (fun e => !isLog e) (fun _ => rfl), demoDraws]
    rfl

/-- Witness of C8: a timer pass in which `AcquireNextFrame(0)` reports
`DXGI_ERROR_WAIT_TIMEOUT`. -/
theorem C8_no_new_frame_witness :
    (∀ s0 : State, (CaptureFrame s0 (captureFailing DXGI_ERROR_WAIT_TIMEOUT)).1 = false) ∧
    ∃ s1, WinMain_tick (stateWith frameB frameA)
        (timerTick (captureFailing DXGI_ERROR_WAIT_TIMEOUT)) = some s1 ∧
      s1.previousFrame = some frameA ∧
      Event.LogInfo "Detecting movement..." ∉ eventsSince (stateWith frameB frameA) s1 ∧
      (∀ r hr, Event.Map r hr ∉ eventsSince (stateWith frameB frameA) s1) ∧
      (∀ dst src, Event.CopyResource dst src ∉ eventsSince (stateWith frameB frameA) s1) ∧
      deviceEvents (eventsSince (stateWith frameB frameA) s1) =
        [Event.AcquireNextFrame 0 DXGI_ERROR_WAIT_TIMEOUT,
          Event.ClearRenderTargetView (XMFLOAT4.mk 0 0 0 0), Event.VSSetShader,
          Event.PSSetShader, Event.IASetInputLayout] ++
        demoDraws s1.objects ++ [Event.Present] :=
  C8_no_new_frame (stateWith frameB frameA) (timerTick (captureFailing DXGI_ERROR_WAIT_TIMEOUT))
    rfl (by decide)

/-! ## C9: access lost -/

/-- Counterexample to C9 as stated: the acquisition of the first pass reports
`DXGI_ERROR_ACCESS_LOST`; the second pass reinitialises nothing, calls
`AcquireNextFrame` again, and diffs the new frame B against the previous buffer from
before the loss (frame A), which yields the region of pixel `(10, 10)`. -/
theorem C9_counterexample :
    ∃ s1 s2,
      WinMain_tick (stateWith frameA frameA)
        (timerTick (captureFailing DXGI_ERROR_ACCESS_LOST)) = some s1 ∧
      s1.previousFrame = some frameA ∧
      WinMain_tick s1 (timerTick (captureOk frameB)) = some s2 ∧
      deviceEvents (eventsSince s1 s2) =
        [Event.AcquireNextFrame 0 0, Event.QueryInterface 0, Event.ReleaseFrame,
          Event.Map Resource.acquiredDesktopImage 0, Event.Map Resource.previousFrame 0,
          Event.Unmap Resource.acquiredDesktopImage, Event.Unmap Resource.previousFrame,
          Event.CopyResource Resource.previousFrame Resource.acquiredDesktopImage,
          Event.Draw (areaVertices (RECT.mk 10 10 60 60)),
          Event.ClearRenderTargetView (XMFLOAT4.mk 0 0 0 0), Event.VSSetShader,
          Event.PSSetShader, Event.IASetInputLayout] ++
        demoDraws s2.objects ++ [Event.Present] := by
  refine ⟨_, _,
    WinMain_tick_acquire_failed (stateWith frameA frameA)
      (timerTick (captureFailing DXGI_ERROR_ACCESS_LOST)) rfl (by decide),
    rfl,
    WinMain_tick_success _ (timerTick (captureOk frameB)) frameA rfl rfl (by decide) (by decide)
      (by decide) (by decide) (by decide) (by decide), ?_⟩
  have hr : changedRegions (timerTick (captureOk frameB)).capture.desktopResource.desc.Width
      (timerTick (captureOk frameB)).capture.desktopResource.desc.Height
      (mapped (timerTick (captureOk frameB)).capture.desktopResource)
      (D3D11_MAPPED_SUBRESOURCE.mk frameA.bytes
        (timerTick (captureOk frameB)).capture.desktopResource.RowPitch) =
      [RECT.mk 10 10 60 60] :=
    changedRegions_frameB_frameA
  rw [hr, eventsSince_append _ _ _ rfl]
  simp only [deviceEvents, List.filter_append,
    filter_draws (fun e => !isLog e) (fun _ => rfl), demoDraws]
  rfl

/-- C9 (as the code behaves). A failed acquisition is handled in one way whatever the
code is, `DXGI_ERROR_ACCESS_LOST` included: the pass renders and presents and ends in
the state it started from, up to the moved demo objects and the trace, in which the
code only appears as the result of `AcquireNextFrame`. No capture-session state is
kept and nothing is reinitialised: the events of the pass contain no
`DuplicateOutput` and no `CreateTexture2D`, and the next pass calls
`AcquireNextFrame(0)` again on the same duplication object before anything else
reaches the device. -/
theorem C9_access_lost_not_distinguished (s : State) (i j : TickInput)
    (hd : s.outputDuplication = true) (ha : FAILED i.capture.hrAcquire = true) :
    ∃ s1, WinMain_tick s i = some s1 ∧
      s1 = { s with
        objects := (WindowProc s i.message i.clientRect).objects
        trace := s.trace ++
          ([Event.LogInfo (messageReceivedMessage i.message),
            Event.LogInfo "Capturing frame...",
            Event.AcquireNextFrame 0 i.capture.hrAcquire,
            Event.LogError "Failed to acquire next frame.",
            Event.LogError "Failed to capture frame.",
            Event.ClearRenderTargetView (XMFLOAT4.mk 0 0 0 0), Event.VSSetShader,
            Event.PSSetShader, Event.IASetInputLayout] ++
            demoDraws (WindowProc s i.message i.clientRect).objects ++ [Event.Present]) } ∧
      (∀ e ∈ eventsSince s s1, isInitEvent e = false) ∧
      ∃ t, (CaptureFrame (WindowProc (LogInfo (messageReceivedMessage j.message) s1) j.message
            j.clientRect) j.capture).2.trace =
          s1.trace ++ (Event.LogInfo (messageReceivedMessage j.message) ::
            Event.LogInfo "Capturing frame..." ::
            Event.AcquireNextFrame 0 j.capture.hrAcquire :: t) ∧
        ∀ e ∈ t, isInitEvent e = false := by
  refine ⟨_, WinMain_tick_acquire_failed s i hd ha, rfl, ?_, ?_⟩
  · rw [eventsSince_append _ _ _ rfl]
    intro e he
    simp only [List.mem_append, List.mem_cons, List.mem_map, List.mem_singleton,
      List.not_mem_nil, or_false] at he
    rcases he with ((rfl | rfl | rfl | rfl | rfl | rfl | rfl | rfl | rfl) | ⟨obj, _, rfl⟩) | rfl
    all_goals rfl
  · exact next_pass_calls_acquire _ j hd

/-- Witness of C9 as amended: the first pass reports `DXGI_ERROR_ACCESS_LOST`, the second
delivers frame B. -/
theorem C9_access_lost_not_distinguished_witness :
    ∃ s1, WinMain_tick (stateWith frameA frameA)
        (timerTick (captureFailing DXGI_ERROR_ACCESS_LOST)) = some s1 ∧
      s1.outputDuplication = true ∧ s1.previousFrame = some frameA ∧
      (∀ e ∈ eventsSince (stateWith frameA frameA) s1, isInitEvent e = false) ∧
      ∃ t, (CaptureFrame (WindowProc (LogInfo (messageReceivedMessage WM_TIMER) s1) WM_TIMER
            (RECT.mk 0 0 1920 1080)) (captureOk frameB)).2.trace =
          s1.trace ++ (Event.LogInfo (messageReceivedMessage WM_TIMER) ::
            Event.LogInfo "Capturing frame..." ::
            Event.AcquireNextFrame 0 0 :: t) ∧
        ∀ e ∈ t, isInitEvent e = false := by
  obtain ⟨s1, h1, h2, h3, h4⟩ :=
    C9_access_lost_not_distinguished (stateWith frameA frameA)
      (timerTick (captureFailing DXGI_ERROR_ACCESS_LOST)) (timerTick (captureOk frameB))
      rfl (by decide)
  refine ⟨s1, h1, ?_, ?_, h3, h4⟩
  · rw [h2]
    rfl
  · rw [h2]
    rfl

/-! ## C10: the render-target events of a pass -/

/-- C10 on the pass that captures frame B over the previous frame A: the region quad of
pixel `(10, 10)` is drawn first, then the render target is cleared to `(0, 0, 0, 0)`,
then the demo quads are drawn and the frame is presented once. The clear lies between
the region draw and the present. -/
theorem C10_region_draw_cleared_before_present :
    (WinMain_tick (stateWith frameA frameA) (timerTick (captureOk frameB))).map
        (fun s1 => renderTargetEvents (eventsSince (stateWith frameA frameA) s1)) =
      some ([Event.Draw (areaVertices (RECT.mk 10 10 60 60)),
        Event.ClearRenderTargetView (XMFLOAT4.mk 0 0 0 0)] ++
        demoDraws (WindowProc (stateWith frameA frameA) WM_TIMER (RECT.mk 0 0 1920 1080)).objects ++
        [Event.Present]) := by
  rw [WinMain_tick_success (stateWith frameA frameA) (timerTick (captureOk frameB)) frameA
    rfl rfl (by decide) (by decide) (by decide) (by decide) (by decide) (by decide)]
  have hr : changedRegions (timerTick (captureOk frameB)).capture.desktopResource.desc.Width
      (timerTick (captureOk frameB)).capture.desktopResource.desc.Height
      (mapped (timerTick (captureOk frameB)).capture.desktopResource)
      (D3D11_MAPPED_SUBRESOURCE.mk frameA.bytes
        (timerTick (captureOk frameB)).capture.desktopResource.RowPitch) =
      [RECT.mk 10 10 60 60] :=
    changedRegions_frameB_frameA
  rw [hr, Option.map_some', eventsSince_append _ _ _ rfl]
  simp only [renderTargetEvents, List.filter_append,
    filter_draws isRenderTargetEvent (fun _ => rfl), demoDraws]
  rfl

/-! ## C11: a failed `Map` drops the cycle -/

/-- Every execution of `DetectMovement` that returns appends a trace that respects the
map protocol and leaves neither texture mapped. -/
theorem DetectMovement_mapSlots (s : State) (i : MapInput) (areas : List RECT) (s1 : State)
    (h : DetectMovement s i = some (areas, s1)) :
    ∃ t, s1.trace = s.trace ++ t ∧ mapSlots (false, false) t = some (false, false) := by
  cases hacq : s.acquiredDesktopImage with
  | none =>
    rw [DetectMovement_null_image s i hacq] at h
    simp only [Option.some.injEq, Prod.mk.injEq] at h
    rw [← h.2]
    exact ⟨_, rfl, by simp [mapSlots]⟩
  | some current =>
    cases hmc : FAILED i.hrCurrent with
    | true =>
      rw [DetectMovement_map_current_failed s i current hacq hmc] at h
      simp only [Option.some.injEq, Prod.mk.injEq] at h
      rw [← h.2]
      exact ⟨_, rfl, by simp [mapSlots, hmc]⟩
    | false =>
      cases hp : s.previousFrame with
      | none =>
        rw [DetectMovement_null_previous s i current hacq hmc hp] at h
        cases h
      | some previous =>
        cases hmp : FAILED i.hrPrevious with
        | true =>
          rw [DetectMovement_map_previous_failed s i current previous hacq hmc hp hmp] at h
          simp only [Option.some.injEq, Prod.mk.injEq] at h
          rw [← h.2]
          exact ⟨_, rfl, by simp [mapSlots, hmc, hmp]⟩
        | false =>
          cases hscan : DetectMovement_scan (mapped current) (mapped previous) current.desc with
          | none =>
            rw [DetectMovement_scan_none s i current previous hacq hmc hp hmp hscan] at h
            cases h
          | some movingAreas =>
            rw [DetectMovement_scan_some s i current previous movingAreas hacq hmc hp hmp
              hscan] at h
            simp only [Option.some.injEq, Prod.mk.injEq] at h
            rw [← h.2]
            exact ⟨_, rfl, by simp [mapSlots, hmc, hmp]⟩

/-- A pass of the loop in which the capture succeeds and the `Map` of the current frame
fails. -/
theorem WinMain_tick_map_current_failed (s : State) (i : TickInput)
    (hd : s.outputDuplication = true)
    (ha : FAILED i.capture.hrAcquire = false) (hq : FAILED i.capture.hrQuery = false)
    (hmc : FAILED i.map.hrCurrent = true) :
    WinMain_tick s i =
      some { s with
        objects := (WindowProc s i.message i.clientRect).objects
        acquiredDesktopImage := some i.capture.desktopResource
        trace := s.trace ++
          ([Event.LogInfo (messageReceivedMessage i.message),
            Event.LogInfo "Capturing frame...",
            Event.AcquireNextFrame 0 i.capture.hrAcquire,
            Event.LogInfo "Next frame acquired successfully.",
            Event.QueryInterface i.capture.hrQuery,
            Event.LogInfo "Acquired desktop image queried successfully.",
            Event.LogInfo (acquiredImageMessage i.capture.desktopResource.desc),
            Event.ReleaseFrame,
            Event.LogInfo "Frame captured successfully.",
            Event.LogInfo "Rendering overlay...",
            Event.LogInfo "Detecting movement...",
            Event.Map Resource.acquiredDesktopImage i.map.hrCurrent,
            Event.LogError (mapCurrentFailedMessage i.map.hrCurrent),
            Event.ClearRenderTargetView (XMFLOAT4.mk 0 0 0 0), Event.VSSetShader,
            Event.PSSetShader, Event.IASetInputLayout] ++
            (WindowProc s i.message i.clientRect).objects.map
              (fun obj => Event.Draw (objectVertices obj)) ++ [Event.Present]) } := by
  rw [WinMain_tick_eq, WindowProc_LogInfo, CaptureFrame_success _ i.capture ?_ ha hq]
  rotate_left
  · exact hd
  simp only [if_true, RenderOverlay_eq]
  rw [DetectMovement_map_current_failed _ i.map i.capture.desktopResource ?_ hmc]
  rotate_left
  · rfl
  simp [RenderFrame_eq, LogInfo, emit]

/-- A pass of the loop in which the capture and the `Map` of the current frame succeed
and the `Map` of the previous frame fails. -/
theorem WinMain_tick_map_previous_failed (s : State) (i : TickInput)
    (previous : ID3D11Texture2D)
    (hd : s.outputDuplication = true) (hp : s.previousFrame = some previous)
    (ha : FAILED i.capture.hrAcquire = false) (hq : FAILED i.capture.hrQuery = false)
    (hmc : FAILED i.map.hrCurrent = false) (hmp : FAILED i.map.hrPrevious = true) :
    WinMain_tick s i =
      some { s with
        objects := (WindowProc s i.message i.clientRect).objects
        acquiredDesktopImage := some i.capture.desktopResource
        trace := s.trace ++
          ([Event.LogInfo (messageReceivedMessage i.message),
            Event.LogInfo "Capturing frame...",
            Event.AcquireNextFrame 0 i.capture.hrAcquire,
            Event.LogInfo "Next frame acquired successfully.",
            Event.QueryInterface i.capture.hrQuery,
            Event.LogInfo "Acquired desktop image queried successfully.",
            Event.LogInfo (acquiredImageMessage i.capture.desktopResource.desc),
            Event.ReleaseFrame,
            Event.LogInfo "Frame captured successfully.",
            Event.LogInfo "Rendering overlay...",
            Event.LogInfo "Detecting movement...",
            Event.Map Resource.acquiredDesktopImage i.map.hrCurrent,
            Event.Map Resource.previousFrame i.map.hrPrevious,
            Event.LogError (mapPreviousFailedMessage i.map.hrPrevious),
            Event.Unmap Resource.acquiredDesktopImage,
            Event.ClearRenderTargetView (XMFLOAT4.mk 0 0 0 0), Event.VSSetShader,
            Event.PSSetShader, Event.IASetInputLayout] ++
            (WindowProc s i.message i.clientRect).objects.map
              (fun obj => Event.Draw (objectVertices obj)) ++ [Event.Present]) } := by
  rw [WinMain_tick_eq, WindowProc_LogInfo, CaptureFrame_success _ i.capture ?_ ha hq]
  rotate_left
  · exact hd
  simp only [if_true, RenderOverlay_eq]
  rw [DetectMovement_map_previous_failed _ i.map i.capture.desktopResource previous ?_ hmc ?_
    hmp]
  rotate_left
  · rfl
  · exact hp
  simp [RenderFrame_eq, LogInfo, emit]

theorem WinMain_loop_cons (s s1 : State) (i : TickInput) (rest : List TickInput)
    (h : WinMain_tick s i = some s1) :
    WinMain_loop s (i :: rest) = WinMain_loop s1 rest := by
  simp only [WinMain_loop, h]

/-- C11 (map failure is a dropped cycle). Every execution of `DetectMovement` that
returns has matched each successful `Map` by one `Unmap` of the same texture and leaves
none mapped; on valid views with both mappings succeeding it returns after the two
`Unmap` calls and the `CopyResource`. When the `Map` of the current frame fails, or it succeeds and the `Map` of
the previous frame fails, `DetectMovement` returns the empty list, unmaps the current
frame in the second case, issues no `CopyResource` and leaves the previous buffer as it
was; the pass of the loop then still clears, draws the demo quads and presents, and the
loop goes on with the next message. -/
theorem C11_map_failure_dropped_cycle (s : State) (i : TickInput) :
    (∀ areas s1, DetectMovement s i.map = some (areas, s1) →
      ∃ t, s1.trace = s.trace ++ t ∧ mapSlots (false, false) t = some (false, false)) ∧
    (∀ current, s.acquiredDesktopImage = some current → FAILED i.map.hrCurrent = true →
      ∃ s1, DetectMovement s i.map = some ([], s1) ∧
        s1.previousFrame = s.previousFrame ∧
        deviceEvents (eventsSince s s1) =
          [Event.Map Resource.acquiredDesktopImage i.map.hrCurrent]) ∧
    (∀ current previous, s.acquiredDesktopImage = some current →
      s.previousFrame = some previous →
      FAILED i.map.hrCurrent = false → FAILED i.map.hrPrevious = true →
      ∃ s1, DetectMovement s i.map = some ([], s1) ∧
        s1.previousFrame = s.previousFrame ∧
        deviceEvents (eventsSince s s1) =
          [Event.Map Resource.acquiredDesktopImage i.map.hrCurrent,
            Event.Map Resource.previousFrame i.map.hrPrevious,
            Event.Unmap Resource.acquiredDesktopImage]) ∧
    (∀ current previous, s.acquiredDesktopImage = some current →
      s.previousFrame = some previous →
      FAILED i.map.hrCurrent = false → FAILED i.map.hrPrevious = false →
      ValidView current.desc (mapped current) →
      current.desc.Height * current.RowPitch ≤ previous.bytes.length →
      ∃ areas s1, DetectMovement s i.map = some (areas, s1) ∧
        deviceEvents (eventsSince s s1) =
          [Event.Map Resource.acquiredDesktopImage i.map.hrCurrent,
            Event.Map Resource.previousFrame i.map.hrPrevious,
            Event.Unmap Resource.acquiredDesktopImage,
            Event.Unmap Resource.previousFrame,
            Event.CopyResource Resource.previousFrame Resource.acquiredDesktopImage]) ∧
    (∀ previous, s.outputDuplication = true → s.previousFrame = some previous →
      FAILED i.capture.hrAcquire = false → FAILED i.capture.hrQuery = false →
      (FAILED i.map.hrCurrent = true ∨ FAILED i.map.hrPrevious = true) →
      ∃ s1, WinMain_tick s i = some s1 ∧
        s1.previousFrame = s.previousFrame ∧
        renderTargetEvents (eventsSince s s1) =
          [Event.ClearRenderTargetView (XMFLOAT4.mk 0 0 0 0)] ++ demoDraws s1.objects ++
            [Event.Present] ∧
        ∀ rest, WinMain_loop s (i :: rest) = WinMain_loop s1 rest) := by
  refine ⟨fun areas s1 h => DetectMovement_mapSlots s i.map areas s1 h, ?_, ?_, ?_, ?_⟩
  · intro current hcur hmc
    refine ⟨_, DetectMovement_map_current_failed s i.map current hcur hmc, rfl, ?_⟩
    rw [eventsSince_append _ _ _ rfl]
    rfl
  · intro current previous hcur hprev hmc hmp
    refine ⟨_, DetectMovement_map_previous_failed s i.map current previous hcur hmc hprev hmp,
      rfl, ?_⟩
    rw [eventsSince_append _ _ _ rfl]
    rfl
  · intro current previous hcur hprev hmc hmp hv hlen
    refine ⟨_, _, DetectMovement_of_mapped s i.map current previous hcur hprev hmc hmp hv hlen,
      ?_⟩
    rw [eventsSince_append _ _ _ rfl]
    rfl
  · intro previous hd hprev ha hq hfail
    cases hmc : FAILED i.map.hrCurrent with
    | true =>
      have ht := WinMain_tick_map_current_failed s i hd ha hq hmc
      refine ⟨_, ht, rfl, ?_, fun rest => WinMain_loop_cons s _ i rest ht⟩
      rw [eventsSince_append _ _ _ rfl]
      simp only [renderTargetEvents, List.filter_append,
        filter_draws isRenderTargetEvent (fun _ => rfl), demoDraws]
      rfl
    | false =>
      have hmp : FAILED i.map.hrPrevious = true := by
        rcases hfail with h | h
        · rw [hmc] at h
          cases h
        · exact h
      have ht := WinMain_tick_map_previous_failed s i previous hd hprev ha hq hmc hmp
      refine ⟨_, ht, rfl, ?_, fun rest => WinMain_loop_cons s _ i rest ht⟩
      rw [eventsSince_append _ _ _ rfl]
      simp only [renderTargetEvents, List.filter_append,
        filter_draws isRenderTargetEvent (fun _ => rfl), demoDraws]
      rfl

/-- Witness of C11: frame B is captured over the previous frame A. In the first run the
`Map` of the current frame succeeds and the `Map` of the previous frame fails with
`E_INVALIDARG`; in the second the `Map` of the current frame fails; in the third both
succeed. -/
theorem C11_map_failure_dropped_cycle_witness :
    (∃ s1, DetectMovement (stateWith frameB frameA) mapPreviousFails = some ([], s1) ∧
      s1.previousFrame = some frameA ∧
      deviceEvents (eventsSince (stateWith frameB frameA) s1) =
        [Event.Map Resource.acquiredDesktopImage 0,
          Event.Map Resource.previousFrame E_INVALIDARG,
          Event.Unmap Resource.acquiredDesktopImage] ∧
      ∃ t, s1.trace = (stateWith frameB frameA).trace ++ t ∧
        mapSlots (false, false) t = some (false, false)) ∧
    (∃ s1, WinMain_tick (stateWith frameB frameA) tickMapPreviousFails = some s1 ∧
      s1.previousFrame = some frameA ∧
      renderTargetEvents (eventsSince (stateWith frameB frameA) s1) =
        [Event.ClearRenderTargetView (XMFLOAT4.mk 0 0 0 0)] ++ demoDraws s1.objects ++
          [Event.Present] ∧
      ∀ rest, WinMain_loop (stateWith frameB frameA) (tickMapPreviousFails :: rest) =
        WinMain_loop s1 rest) ∧
    (∃ s1, DetectMovement (stateWith frameB frameA) mapCurrentFails = some ([], s1) ∧
      s1.previousFrame = some frameA ∧
      deviceEvents (eventsSince (stateWith frameB frameA) s1) =
        [Event.Map Resource.acquiredDesktopImage E_INVALIDARG]) ∧
    ∃ areas s1, DetectMovement (stateWith frameB frameA) mapsOk = some (areas, s1) ∧
      deviceEvents (eventsSince (stateWith frameB frameA) s1) =
        [Event.Map Resource.acquiredDesktopImage 0,
          Event.Map Resource.previousFrame 0,
          Event.Unmap Resource.acquiredDesktopImage,
          Event.Unmap Resource.previousFrame,
          Event.CopyResource Resource.previousFrame Resource.acquiredDesktopImage] := by
  obtain ⟨h1, _, h3, _, h5⟩ :=
    C11_map_failure_dropped_cycle (stateWith frameB frameA) tickMapPreviousFails
  obtain ⟨s1, hs1, hp1, he1⟩ := h3 frameB frameA rfl rfl (by decide) (by decide)
  refine ⟨⟨s1, hs1, hp1, he1, h1 [] s1 hs1⟩,
    h5 frameA rfl rfl (by decide) (by decide) (Or.inr (by decide)), ?_, ?_⟩
  · exact (C11_map_failure_dropped_cycle (stateWith frameB frameA) tickMapCurrentFails).2.1
      frameB rfl (by decide)
  · exact (C11_map_failure_dropped_cycle (stateWith frameB frameA)
      (timerTick (captureOk frameB))).2.2.2.1 frameB frameA rfl rfl (by decide) (by decide)
      (by decide) (by decide)

/-! ## C12: the row pitch of the previous view -/

/-- What `DetectMovement` compares at pixel `(x, y)`: the four bytes of both buffers at
the offset computed from the row pitch of the current view. On valid views the
returned list holds the marker of `(x, y)` exactly when these bytes differ. -/
theorem DetectMovement_classifies (s : State) (i : MapInput)
    (current previous : ID3D11Texture2D)
    (hcur : s.acquiredDesktopImage = some current) (hprev : s.previousFrame = some previous)
    (hmc : FAILED i.hrCurrent = false) (hmp : FAILED i.hrPrevious = false)
    (hvc : ValidView current.desc (mapped current))
    (hlen : current.desc.Height * current.RowPitch ≤ previous.bytes.length)
    (x y : Nat) (hx : x < current.desc.Width) (hy : y < current.desc.Height) :
    ∃ movingAreas s1, DetectMovement s i = some (movingAreas, s1) ∧
      (marker x y ∈ movingAreas ↔
        (current.bytes.drop (y * current.RowPitch + 4 * x)).take 4 ≠
          (previous.bytes.drop (y * current.RowPitch + 4 * x)).take 4) := by
  refine ⟨_, _, DetectMovement_of_mapped s i current previous hcur hprev hmc hmp hvc hlen, ?_⟩
  simp only [changedRegions, List.mem_map]
  constructor
  · rintro ⟨⟨x1, y1⟩, hmem, hm⟩
    simp only [marker, RECT.mk.injEq, Nat.cast_inj] at hm
    obtain ⟨rfl, rfl, _, _⟩ := hm
    exact ((mem_changedPixels _ _ _ _ x1 y1).mp hmem).2.2
  · intro hne
    exact ⟨(x, y), (mem_changedPixels _ _ _ _ x y).mpr ⟨hx, hy, hne⟩, rfl⟩

/-- C12 at a pair of views whose row pitches differ. Both 2 by 2 views show the same
picture: every pixel `(x, y)` has the same four bytes at offset `y * 8 + 4 * x` of the
current view and at offset `y * 12 + 4 * x` of the previous view, so no pixel is changed
and the reference region list is empty. `DetectMovement` indexes the previous buffer
with the pitch of the current view, reads the padding of its first row for pixel
`(0, 1)`, and returns the marker of that pixel. -/
theorem C12_previous_pitch_ignored :
    (∀ x y, x < 2 → y < 2 →
      pixelBytes (mapped frameTight) x y = pixelBytes (mapped framePadded) x y) ∧
    changedPixels 2 2 (mapped frameTight) (mapped framePadded) = [] ∧
    ValidView desc2 (mapped frameTight) ∧ ValidView desc2 (mapped framePadded) ∧
    ∃ s1, DetectMovement (stateWith frameTight framePadded) mapsOk =
      some ([RECT.mk 0 1 50 51], s1) := by
  refine ⟨?_, by decide, by decide, by decide, ?_⟩
  · intro x y hx hy
    interval_cases x <;> interval_cases y <;> decide
  rw [DetectMovement_of_mapped (stateWith frameTight framePadded) mapsOk frameTight framePadded
    rfl rfl (by decide) (by decide) (by decide) (by decide)]
  have hr : changedRegions frameTight.desc.Width frameTight.desc.Height (mapped frameTight)
      (D3D11_MAPPED_SUBRESOURCE.mk framePadded.bytes frameTight.RowPitch) =
      [RECT.mk 0 1 50 51] := by
    decide
  exact ⟨_, by rw [hr]⟩

end OverlayApp
